import Mathlib

/-!
# i965 framebuffer-object code (`intel_fbo.c`): a shallow embedding

The definitions below follow `src/mesa/drivers/dri/i965/intel_fbo.c` function by
function and keep the C names.  Conventions of the embedding:

* a C pointer is an `Option`: `none` is `NULL`; dereferencing `NULL` makes the
  embedded function return `Except.error Fault.null_deref`;
* `unsigned` / `GLuint` / `GLbitfield` values are `Nat`, `int` / `GLint` values are `Int`;
  where the C expression can leave the 32-bit range the reduction is written
  out (`wrap_GLint`, `to_GLuint`);
* miptrees (`struct intel_mipmap_tree`) live in a store indexed by address, so that
  the pointer comparisons of the C code are comparisons of addresses;
* functions of other translation units are fields of `Collaborators`.
-/

namespace IntelFbo

/-! ## Sample-count quantisation (`intel_fbo.c` lines 156-182) -/

/-- The part of `struct intel_screen` read by this file: the hardware generation (`int gen`). -/
structure intel_screen where
  gen : Int
  deriving DecidableEq, Repr

/-- Embedding of `intel_quantize_num_samples`: the `switch` on `intel->gen` with the
three cases `6`, `7` and `default`. -/
def intel_quantize_num_samples (intel : intel_screen) (num_samples : Nat) : Nat :=
  if intel.gen = 6 then
    -- Gen6 supports only 4x multisampling.
    if num_samples > 0 then 4 else 0
  else if intel.gen = 7 then
    -- Gen7 supports 4x and 8x multisampling.
    if num_samples > 4 then 8
    else if num_samples > 0 then 4
    else 0
  else
    -- MSAA unsupported.
    0

/-- The sample counts a generation supports, in increasing order, as section 4.2 of
the specification describes them: none, a fixed count, or a ladder of counts. -/
def supported_sample_counts (gen : Int) : List Nat :=
  if gen = 6 then [4] else if gen = 7 then [4, 8] else []

/-- Reference definition written from the words of the specification: a request of
zero stays zero; a generation without multisampling maps every request to zero;
otherwise the result is the smallest supported count that is at least the request,
or the largest supported count when the request exceeds them all. -/
def quantize_reference (gen : Int) (requested : Nat) : Nat :=
  if requested = 0 then 0
  else
    match (supported_sample_counts gen).find? (fun c => decide (requested ≤ c)) with
    | some c => c
    | none => (supported_sample_counts gen).foldl max 0

/-! ## Data model: formats, miptrees, renderbuffers, framebuffers -/

/-- The members of `gl_format` that `intel_fbo.c` names; every other member of the
enumeration is `other k`. -/
inductive gl_format where
  | MESA_FORMAT_NONE
  | MESA_FORMAT_RGBA8888_REV
  | MESA_FORMAT_S8
  | MESA_FORMAT_S8_Z24
  | other (k : Nat)
  deriving DecidableEq, Repr

/-- The value `GL_NONE`. -/
def GL_NONE : Nat := 0
/-- The value `GL_TEXTURE`. -/
def GL_TEXTURE : Nat := 0x1702
/-- The value `GL_RENDERBUFFER`. -/
def GL_RENDERBUFFER : Nat := 0x8D41
/-- The value `GL_FRAMEBUFFER_COMPLETE`. -/
def GL_FRAMEBUFFER_COMPLETE : Nat := 0x8CD5
/-- The value `GL_FRAMEBUFFER_UNSUPPORTED`. -/
def GL_FRAMEBUFFER_UNSUPPORTED : Nat := 0x8CDD
/-- The value `GL_NEAREST`. -/
def GL_NEAREST : Nat := 0x2600
/-- The bit `GL_DEPTH_BUFFER_BIT`. -/
def GL_DEPTH_BUFFER_BIT : Nat := 0x00000100
/-- The bit `GL_STENCIL_BUFFER_BIT`. -/
def GL_STENCIL_BUFFER_BIT : Nat := 0x00000400
/-- The bit `GL_COLOR_BUFFER_BIT`. -/
def GL_COLOR_BUFFER_BIT : Nat := 0x00004000

/-- Number of attachment slots of a `gl_framebuffer` (`BUFFER_COUNT` of `gl_buffer_index`). -/
def BUFFER_COUNT : Nat := 16
/-- Index of the depth slot in `gl_buffer_index`. -/
def BUFFER_DEPTH : Nat := 4
/-- Index of the stencil slot in `gl_buffer_index`. -/
def BUFFER_STENCIL : Nat := 5
/-- The class tag that marks a `gl_renderbuffer` as an `intel_renderbuffer`. -/
def INTEL_RB_CLASS : Nat := 0x12345678

/-- Address of a `struct intel_mipmap_tree`. -/
abbrev MtPtr := Nat

/-- The members of `enum intel_msaa_layout`. -/
inductive intel_msaa_layout where
  | INTEL_MSAA_LAYOUT_NONE
  | INTEL_MSAA_LAYOUT_IMS
  | INTEL_MSAA_LAYOUT_UMS
  | INTEL_MSAA_LAYOUT_CMS
  deriving DecidableEq, Repr

/-- The fields of `struct intel_mipmap_tree` that `intel_fbo.c` reads.  The per-slice
resolve flags of section 3 of the specification are kept as the lists of the slices
`(level, layer)` whose flag is set. -/
structure intel_mipmap_tree where
  format : gl_format := gl_format.MESA_FORMAT_NONE
  stencil_mt : Option MtPtr := none
  hiz_mt : Option MtPtr := none
  num_samples : Nat := 0
  msaa_layout : intel_msaa_layout := intel_msaa_layout.INTEL_MSAA_LAYOUT_NONE
  needs_hiz_resolve : List (Nat × Nat) := []
  needs_depth_resolve : List (Nat × Nat) := []
  deriving DecidableEq, Repr

/-- The miptree store: the object found at each address. -/
abbrev MtStore := MtPtr → intel_mipmap_tree

/-- The fields of `struct gl_texture_image` that `intel_fbo.c` reads, together with the
field `mt` that `struct intel_texture_image` adds to it. -/
structure gl_texture_image where
  Border : Int := 0
  Level : Int := 0
  Depth : Nat := 1
  mt : Option MtPtr := none
  deriving DecidableEq, Repr

/-- The functions that `intel_fbo.c` installs as `gl_renderbuffer::AllocStorage`;
`unset` is a callback that this file has not installed. -/
inductive alloc_storage_fn where
  | unset
  | intel_alloc_renderbuffer_storage
  | intel_alloc_window_storage
  | intel_nop_alloc_storage
  deriving DecidableEq, Repr

/-- A renderbuffer: `struct gl_renderbuffer` together with the fields that
`struct intel_renderbuffer` adds to it (`mt`, `mt_level`, `mt_layer`, `draw_x`,
`draw_y`) and the fields of `struct swrast_renderbuffer` that the file reads
(`Buffer`, an address, and `RowStride`).  The fields `mt` to `draw_y` mean something
only when `ClassID = INTEL_RB_CLASS`; the code reaches them only through the
downcast `intel_renderbuffer`. -/
structure gl_renderbuffer where
  Name : Nat := 0
  ClassID : Nat := 0
  Format : gl_format := gl_format.MESA_FORMAT_NONE
  Width : Nat := 0
  Height : Nat := 0
  NumSamples : Nat := 0
  TexImage : Option gl_texture_image := none
  mt : Option MtPtr := none
  mt_level : Nat := 0
  mt_layer : Nat := 0
  draw_x : Nat := 0
  draw_y : Nat := 0
  InternalFormat : Nat := 0
  _BaseFormat : Nat := 0
  Depth : Nat := 0
  AllocStorage : alloc_storage_fn := alloc_storage_fn.unset
  Buffer : Option Int := none
  RowStride : Int := 0
  deriving DecidableEq, Repr

/-- One attachment slot, `struct gl_renderbuffer_attachment`; the C field `Type` is
written `Type_` because `Type` is reserved. -/
structure gl_renderbuffer_attachment where
  Type_ : Nat := 0
  Renderbuffer : Option gl_renderbuffer := none
  TextureLevel : Nat := 0
  CubeMapFace : Nat := 0
  Zoffset : Nat := 0
  deriving DecidableEq, Repr

/-- The fields of `struct gl_framebuffer` that `intel_fbo.c` reads or writes.
`Width` and `Height` are `GLuint`; `Attachment` has `BUFFER_COUNT` elements. -/
structure gl_framebuffer where
  _Status : Nat := 0
  Width : Nat := 0
  Height : Nat := 0
  Attachment : Nat → gl_renderbuffer_attachment := fun _ => {}
  _ColorReadBuffer : Option gl_renderbuffer := none
  _NumColorDrawBuffers : Nat := 0
  _ColorDrawBuffers : Nat → Option gl_renderbuffer := fun _ => none

/-- The fields of `struct brw_context` (with the `gl_context` it starts with) that
`intel_fbo.c` reads. -/
structure brw_context where
  intelScreen : intel_screen := { gen := 0 }
  gen : Int := 0
  has_separate_stencil : Bool := false
  must_use_separate_stencil : Bool := false
  ScissorEnabled : Bool := false
  DrawBuffer : gl_framebuffer := {}
  ReadBuffer : gl_framebuffer := {}

/-- The one run-time fault the embedding tracks: a dereference of `NULL`. -/
inductive Fault where
  | null_deref
  deriving DecidableEq, Repr

/-- Modelled from the spec: the downcast `intel_renderbuffer()` of `intel_fbo.h`, which
is not among the sources.  Section 9 describes it as a class-ID check followed by
a reinterpretation: the result is the same object when the pointer is not `NULL`
and carries the driver's class tag, and `NULL` otherwise. -/
def intel_renderbuffer (rb : Option gl_renderbuffer) : Option gl_renderbuffer :=
  match rb with
  | some r => if r.ClassID = INTEL_RB_CLASS then some r else none
  | none => none

/-- Modelled from the spec: `intel_get_renderbuffer()` of `intel_fbo.h`, which is not
among the sources: the driver Surface referenced by attachment slot `attIndex`,
or `NULL` when the slot references none. -/
def intel_get_renderbuffer (fb : gl_framebuffer) (attIndex : Nat) : Option gl_renderbuffer :=
  intel_renderbuffer (fb.Attachment attIndex).Renderbuffer

/-! ## The blit engine call and the collaborators of other translation units -/

/-- The arguments of one `intel_miptree_blit` call issued by the direct engine copy. -/
structure BlitCall where
  src_mt : Option MtPtr
  src_level : Nat
  src_layer : Nat
  src_x : Int
  src_y : Int
  src_flip : Bool
  dst_mt : Option MtPtr
  dst_level : Nat
  dst_layer : Nat
  dst_x : Int
  dst_y : Int
  dst_flip : Bool
  width : Int
  height : Int
  deriving DecidableEq, Repr

/-- The rectangle pair of a framebuffer blit, as the eight `GLint` arguments. -/
structure BlitRect where
  srcX0 : Int
  srcY0 : Int
  srcX1 : Int
  srcY1 : Int
  dstX0 : Int
  dstY0 : Int
  dstX1 : Int
  dstY1 : Int
  deriving DecidableEq, Repr

/-- Functions that `intel_fbo.c` calls and other translation units define.  Each is
an arbitrary function of what it is given: the theorems hold for every choice.
`intel_miptree_blit` also receives the calls issued before it, so that its
outcome may differ between two identical calls.

* `ChooseTextureFormat` is `ctx->Driver.ChooseTextureFormat(ctx, target,
  internalFormat, format, type)`;
* `intel_miptree_create_for_renderbuffer` is the storage allocator: the address of
  the new region, or `NULL`;
* `intel_miptree_check_level_layer` is the condition that the function of that name
  asserts;
* `intel_miptree_get_image_offset` gives the pair written to `*x, *y`;
* `intel_miptree_alloc_hiz` gives the miptree store after the call, in which the
  `hiz_mt` of the miptree is set when the allocation succeeded;
* `hiz_resolve_op` and `depth_resolve_op` are the hardware operations behind the two
  slice resolves and answer whether the operation succeeded;
* `intel_miptree_map` gives the pair written to `*out_ptr, *out_stride`, the address
  of the first mapped row and the distance in bytes between rows. -/
structure Collaborators where
  intel_miptree_slice_has_hiz : MtStore → Option MtPtr → Nat → Nat → Bool
  brw_render_target_supported : brw_context → gl_renderbuffer → Bool
  _mesa_get_srgb_format_linear : gl_format → gl_format
  intel_prepare_render : brw_context → brw_context
  intel_miptree_blit : List BlitCall → BlitCall → Bool
  brw_blorp_framebuffer : brw_context → BlitRect → Nat → Nat → Nat × brw_context
  ChooseTextureFormat : brw_context → Nat → Nat → Nat → Nat → gl_format
  _mesa_base_fbo_format : brw_context → Nat → Nat
  intel_miptree_create_for_renderbuffer : brw_context → gl_format → Nat → Nat → Nat → Option MtPtr
  intel_miptree_check_level_layer : MtStore → MtPtr → Nat → Nat → Bool
  intel_miptree_get_image_offset : MtStore → Option MtPtr → Nat → Nat → Nat × Nat
  brw_is_hiz_depth_format : brw_context → gl_format → Bool
  intel_miptree_alloc_hiz : brw_context → MtStore → MtPtr → MtStore
  hiz_resolve_op : brw_context → MtStore → MtPtr → Nat → Nat → Bool
  depth_resolve_op : brw_context → MtStore → MtPtr → Nat → Nat → Bool
  _mesa_get_format_bytes : gl_format → Int
  intel_miptree_map : brw_context → MtStore → Option MtPtr → Nat → Nat →
    Nat → Nat → Nat → Nat → Nat → Int × Int

/-! ## Completeness validation (`intel_fbo.c` lines 533-648) -/

/-- The diagnostics of `intel_validate_framebuffer`, one per `fbo_incomplete` site. -/
inductive FboDiag where
  | depth_stencil_level_layer_mismatch
  | separate_stencil_unsupported
  | separate_stencil_not_S8
  | separate_stencil_without_hiz
  | attachment_without_renderbuffer
  | texture_with_border
  | software_rendering_renderbuffer
  | unsupported_format
  deriving DecidableEq, Repr

/-- What the validator mutates: the framebuffer (its cached `_Status`) and the
diagnostics raised so far, oldest first. -/
structure ValidateState where
  fb : gl_framebuffer
  diags : List FboDiag := []

/-- Embedding of the macro `fbo_incomplete(fb, ...)`: report the diagnostic and set
`fb->_Status = GL_FRAMEBUFFER_UNSUPPORTED`. -/
def fbo_incomplete (st : ValidateState) (d : FboDiag) : ValidateState :=
  { fb := { st.fb with _Status := GL_FRAMEBUFFER_UNSUPPORTED }, diags := st.diags ++ [d] }

/-- Embedding of `intel_renderbuffer_has_hiz` (lines 790-797): the miptree collaborator
is asked about the slice `(mt_level, mt_layer)` of `irb->mt`. -/
def intel_renderbuffer_has_hiz (ext : Collaborators) (mts : MtStore) (irb : gl_renderbuffer) : Bool :=
  ext.intel_miptree_slice_has_hiz mts irb.mt irb.mt_level irb.mt_layer

/-- Lines 565-569: `stencil_mt = stencilRb->mt`, then the unwrapping
`if (stencil_mt->stencil_mt) stencil_mt = stencil_mt->stencil_mt`.  The test
dereferences `stencil_mt` without a check, so a stencil renderbuffer whose `mt` is
`NULL` faults. -/
def resolve_stencil_mt (mts : MtStore) (stencilRb : Option gl_renderbuffer) :
    Except Fault (Option MtPtr) :=
  match stencilRb with
  | none => .ok none
  | some s =>
    match s.mt with
    | none => .error Fault.null_deref
    | some p =>
      match (mts p).stencil_mt with
      | some q => .ok (some q)
      | none => .ok (some p)

/-- Lines 563-564: `if (depthRb) depth_mt = depthRb->mt`. -/
def resolve_depth_mt (depthRb : Option gl_renderbuffer) : Option MtPtr :=
  match depthRb with
  | some d => d.mt
  | none => none

/-- Lines 552-608 of `intel_validate_framebuffer`: the depth/stencil step. -/
def intel_validate_framebuffer_depth_stencil (ext : Collaborators) (brw : brw_context)
    (mts : MtStore) (st : ValidateState) : Except Fault ValidateState :=
  let depthRb := intel_get_renderbuffer st.fb BUFFER_DEPTH
  let stencilRb := intel_get_renderbuffer st.fb BUFFER_STENCIL
  let depth_mt := resolve_depth_mt depthRb
  match resolve_stencil_mt mts stencilRb with
  | .error e => .error e
  | .ok stencil_mt =>
    match depthRb, stencilRb, depth_mt, stencil_mt with
    | some d, some s, some dmt, some smt =>
      if dmt = smt then
        if d.mt_level ≠ s.mt_level ∨ d.mt_layer ≠ s.mt_layer then
          .ok (fbo_incomplete st FboDiag.depth_stencil_level_layer_mismatch)
        else .ok st
      else
        let st1 := if brw.has_separate_stencil = false then
            fbo_incomplete st FboDiag.separate_stencil_unsupported else st
        let st2 := if (mts smt).format ≠ gl_format.MESA_FORMAT_S8 then
            fbo_incomplete st1 FboDiag.separate_stencil_not_S8 else st1
        let st3 := if brw.gen < 7 ∧ intel_renderbuffer_has_hiz ext mts d = false then
            fbo_incomplete st2 FboDiag.separate_stencil_without_hiz else st2
        .ok st3
    | _, _, _, _ => .ok st

/-- Lines 628-633: whether slot `att`, holding renderbuffer `rb`, is a texture slot
whose image has a border (`rb->TexImage->Border`, read only when
`Type == GL_TEXTURE`, and without a check of `rb->TexImage`). -/
def attachment_has_border (att : gl_renderbuffer_attachment) (rb : gl_renderbuffer) :
    Except Fault Bool :=
  if att.Type_ = GL_TEXTURE then
    match rb.TexImage with
    | none => .error Fault.null_deref
    | some img => .ok (decide (img.Border ≠ 0))
  else .ok false

/-- The body of the loop at lines 610-647 for one attachment slot. -/
def intel_validate_framebuffer_attachment (ext : Collaborators) (brw : brw_context)
    (st : ValidateState) (att : gl_renderbuffer_attachment) : Except Fault ValidateState :=
  if att.Type_ = GL_NONE then .ok st
  else
    match att.Renderbuffer with
    | none => .ok (fbo_incomplete st FboDiag.attachment_without_renderbuffer)
    | some rb =>
      match attachment_has_border att rb with
      | .error e => .error e
      | .ok true => .ok (fbo_incomplete st FboDiag.texture_with_border)
      | .ok false =>
        match intel_renderbuffer (some rb) with
        | none => .ok (fbo_incomplete st FboDiag.software_rendering_renderbuffer)
        | some _ =>
          if ext.brw_render_target_supported brw rb = false then
            .ok (fbo_incomplete st FboDiag.unsupported_format)
          else .ok st

/-- The loop `for (i = 0; i < Elements(fb->Attachment); i++)` over the slots listed. -/
def intel_validate_framebuffer_attachments (ext : Collaborators) (brw : brw_context) :
    List Nat → ValidateState → Except Fault ValidateState
  | [], st => .ok st
  | i :: rest, st =>
    match intel_validate_framebuffer_attachment ext brw st (st.fb.Attachment i) with
    | .error e => .error e
    | .ok st1 => intel_validate_framebuffer_attachments ext brw rest st1

/-- Embedding of `intel_validate_framebuffer` (lines 548-648): the depth/stencil step,
then the loop over all `BUFFER_COUNT` attachment slots. -/
def intel_validate_framebuffer (ext : Collaborators) (brw : brw_context) (mts : MtStore)
    (fb : gl_framebuffer) : Except Fault ValidateState :=
  match intel_validate_framebuffer_depth_stencil ext brw mts { fb := fb } with
  | .error e => .error e
  | .ok st => intel_validate_framebuffer_attachments ext brw (List.range BUFFER_COUNT) st

/-- The cached status a validation run leaves, or `none` when the run faulted. -/
def validate_status (r : Except Fault ValidateState) : Option Nat :=
  match r with
  | .ok st => some st.fb._Status
  | .error _ => none

/-- The dereference `rb->TexImage->Border` of line 629 is defined for this slot: the
slot is not a texture slot, or holds no renderbuffer, or its renderbuffer has a
texture image. -/
def texture_image_present (att : gl_renderbuffer_attachment) : Bool :=
  if att.Type_ = GL_TEXTURE then
    match att.Renderbuffer with
    | some rb => rb.TexImage.isSome
    | none => true
  else true

/-- The dereference `stencil_mt->stencil_mt` of line 567 is defined: there is no
stencil Surface, or the stencil Surface has a region. -/
def stencil_region_present (fb : gl_framebuffer) : Bool :=
  match intel_get_renderbuffer fb BUFFER_STENCIL with
  | some s => s.mt.isSome
  | none => true

/-- Every pointer that `intel_validate_framebuffer` dereferences without a check is
present. -/
def validate_derefs_defined (fb : gl_framebuffer) : Bool :=
  stencil_region_present fb &&
  (List.range BUFFER_COUNT).all (fun i => texture_image_present (fb.Attachment i))

/-- The slot passes every check of the attachment loop: it is empty (`Type == GL_NONE`),
or it holds a driver Surface (a renderbuffer carrying the driver class tag) that
the hardware supports as a render target and, when the slot is a texture slot,
whose source texture image exists and has zero border. -/
def attachment_renderable (ext : Collaborators) (brw : brw_context)
    (att : gl_renderbuffer_attachment) : Bool :=
  if att.Type_ = GL_NONE then true
  else
    match att.Renderbuffer with
    | none => false
    | some rb =>
      decide (rb.ClassID = INTEL_RB_CLASS) &&
      (if att.Type_ = GL_TEXTURE then
        match rb.TexImage with
        | some img => decide (img.Border = 0)
        | none => false
       else true) &&
      ext.brw_render_target_supported brw rb

/-! ## Blit dispatch (`intel_fbo.c` lines 650-778) -/

/-- The value of a `GLint` expression whose mathematical value is `x`, reduced to the
32-bit two's-complement range. -/
def wrap_GLint (x : Int) : Int := (x + 2147483648) % 4294967296 - 2147483648

/-- Conversion of a `GLint` to `GLuint`, as the comparison of a `GLint` with the
`GLuint` fields `Width` and `Height` performs it. -/
def to_GLuint (x : Int) : Nat := (x % 4294967296).toNat

/-- The argument is a value of type `GLint`. -/
def InGLint (x : Int) : Prop := -2147483648 ≤ x ∧ x < 2147483648

instance (x : Int) : Decidable (InGLint x) := by
  unfold InGLint
  exact inferInstance

/-- All eight coordinates of a blit are values of type `GLint`. -/
def BlitRect.InRange (r : BlitRect) : Prop :=
  InGLint r.srcX0 ∧ InGLint r.srcY0 ∧ InGLint r.srcX1 ∧ InGLint r.srcY1 ∧
  InGLint r.dstX0 ∧ InGLint r.dstY0 ∧ InGLint r.dstX1 ∧ InGLint r.dstY1

instance (r : BlitRect) : Decidable r.InRange := by
  unfold BlitRect.InRange
  exact inferInstance

/-- The condition at lines 690-698 whose negation makes the direct engine copy give
up ("non-1:1 blit"), with `readFb = ctx->ReadBuffer` and `drawFb = ctx->DrawBuffer`. -/
def blit_is_one_to_one (brw : brw_context) (r : BlitRect) : Bool :=
  decide (wrap_GLint (r.srcX0 - r.srcX1) = wrap_GLint (r.dstX0 - r.dstX1)) &&
  decide (wrap_GLint (r.srcY0 - r.srcY1) = wrap_GLint (r.dstY0 - r.dstY1)) &&
  decide (r.srcX1 ≥ r.srcX0) &&
  decide (r.srcY1 ≥ r.srcY0) &&
  decide (r.srcX0 ≥ 0) && decide (to_GLuint r.srcX1 ≤ brw.ReadBuffer.Width) &&
  decide (r.srcY0 ≥ 0) && decide (to_GLuint r.srcY1 ≤ brw.ReadBuffer.Height) &&
  decide (r.dstX0 ≥ 0) && decide (to_GLuint r.dstX1 ≤ brw.DrawBuffer.Width) &&
  decide (r.dstY0 ≥ 0) && decide (to_GLuint r.dstY1 ≤ brw.DrawBuffer.Height) &&
  !brw.ScissorEnabled

/-- The `intel_miptree_blit` call of lines 732-739 for one draw buffer. -/
def blit_call (src_rb dst_rb : gl_renderbuffer) (r : BlitRect) : BlitCall :=
  { src_mt := src_rb.mt, src_level := src_rb.mt_level, src_layer := src_rb.mt_layer,
    src_x := r.srcX0, src_y := r.srcY0, src_flip := decide (src_rb.Name = 0),
    dst_mt := dst_rb.mt, dst_level := dst_rb.mt_level, dst_layer := dst_rb.mt_layer,
    dst_x := r.dstX0, dst_y := r.dstY0, dst_flip := decide (dst_rb.Name = 0),
    width := wrap_GLint (r.dstX1 - r.dstX0), height := wrap_GLint (r.dstY1 - r.dstY0) }

/-- The loop at lines 712-744 over the draw buffers listed: `true` when every one of
them was copied, `false` at the first `return mask`; the second component is the
list of engine copies issued, oldest first. -/
def blit_color_draw_buffers (ext : Collaborators) (brw : brw_context) (src_rb : gl_renderbuffer)
    (r : BlitRect) : List Nat → List BlitCall → Bool × List BlitCall
  | [], issued => (true, issued)
  | i :: rest, issued =>
    match intel_renderbuffer (brw.DrawBuffer._ColorDrawBuffers i) with
    | none => (false, issued)
    | some dst_rb =>
      if ext._mesa_get_srgb_format_linear src_rb.Format
          ≠ ext._mesa_get_srgb_format_linear dst_rb.Format then (false, issued)
      else if ext.intel_miptree_blit issued (blit_call src_rb dst_rb r) = false then
        (false, issued ++ [blit_call src_rb dst_rb r])
      else
        blit_color_draw_buffers ext brw src_rb r rest (issued ++ [blit_call src_rb dst_rb r])

/-- The expression `mask & ~GL_COLOR_BUFFER_BIT` on a 32-bit `GLbitfield`. -/
def clear_color_bit (mask : Nat) : Nat := mask &&& (0xFFFFFFFF ^^^ GL_COLOR_BUFFER_BIT)

/-- What `intel_blit_framebuffer_with_blitter` returns and does: the returned mask,
the context after `intel_prepare_render`, and the engine copies issued. -/
structure BlitterResult where
  mask : Nat
  brw : brw_context
  blits : List BlitCall

/-- Embedding of `intel_blit_framebuffer_with_blitter` (lines 658-750). -/
def intel_blit_framebuffer_with_blitter (ext : Collaborators) (ctx : brw_context)
    (r : BlitRect) (mask : Nat) (_filter : Nat) : BlitterResult :=
  let brw := ext.intel_prepare_render ctx
  if mask &&& GL_COLOR_BUFFER_BIT ≠ 0 then
    match intel_renderbuffer brw.ReadBuffer._ColorReadBuffer with
    | none => { mask := mask, brw := brw, blits := [] }
    | some src_rb =>
      if blit_is_one_to_one brw r = false then { mask := mask, brw := brw, blits := [] }
      else
        match blit_color_draw_buffers ext brw src_rb r
            (List.range brw.DrawBuffer._NumColorDrawBuffers) [] with
        | (false, issued) => { mask := mask, brw := brw, blits := issued }
        | (true, issued) => { mask := clear_color_bit mask, brw := brw, blits := issued }
  else { mask := mask, brw := brw, blits := [] }

/-- One stage invocation of `intel_blit_framebuffer`, with the rectangle, mask and
filter it was given. -/
inductive BlitStageCall where
  | brw_blorp_framebuffer (r : BlitRect) (mask : Nat) (filter : Nat)
  | intel_blit_framebuffer_with_blitter (r : BlitRect) (mask : Nat) (filter : Nat)
  | _mesa_meta_BlitFramebuffer (r : BlitRect) (mask : Nat) (filter : Nat)
  deriving DecidableEq, Repr

/-- Embedding of `intel_blit_framebuffer` (lines 752-778): the stage invocations in the
order they happen. -/
def intel_blit_framebuffer (ext : Collaborators) (ctx : brw_context)
    (r : BlitRect) (mask : Nat) (filter : Nat) : List BlitStageCall :=
  let s1 := ext.brw_blorp_framebuffer ctx r mask filter
  if s1.1 = 0 then [BlitStageCall.brw_blorp_framebuffer r mask filter]
  else
    let s2 := intel_blit_framebuffer_with_blitter ext s1.2 r s1.1 filter
    if s2.mask = 0 then
      [BlitStageCall.brw_blorp_framebuffer r mask filter,
       BlitStageCall.intel_blit_framebuffer_with_blitter r s1.1 filter]
    else
      [BlitStageCall.brw_blorp_framebuffer r mask filter,
       BlitStageCall.intel_blit_framebuffer_with_blitter r s1.1 filter,
       BlitStageCall._mesa_meta_BlitFramebuffer r s2.mask filter]

/-! ## Storage allocation (`intel_fbo.c` lines 185-245) -/

/-- The value `GL_STENCIL_INDEX`. -/
def GL_STENCIL_INDEX : Nat := 0x1901
/-- The value `GL_STENCIL_INDEX1_EXT`. -/
def GL_STENCIL_INDEX1_EXT : Nat := 0x8D46
/-- The value `GL_STENCIL_INDEX4_EXT`. -/
def GL_STENCIL_INDEX4_EXT : Nat := 0x8D47
/-- The value `GL_STENCIL_INDEX8_EXT`. -/
def GL_STENCIL_INDEX8_EXT : Nat := 0x8D48
/-- The value `GL_STENCIL_INDEX16_EXT`. -/
def GL_STENCIL_INDEX16_EXT : Nat := 0x8D49
/-- The value `GL_TEXTURE_2D`. -/
def GL_TEXTURE_2D : Nat := 0x0DE1
/-- The value `GL_RGBA8`, an internal format that is not a stencil index format. -/
def GL_RGBA8 : Nat := 0x8058

/-- The `case` labels of the `switch (internalFormat)` at lines 210-214. -/
def is_stencil_index_format (internalFormat : Nat) : Bool :=
  decide (internalFormat = GL_STENCIL_INDEX) ||
  decide (internalFormat = GL_STENCIL_INDEX1_EXT) ||
  decide (internalFormat = GL_STENCIL_INDEX4_EXT) ||
  decide (internalFormat = GL_STENCIL_INDEX8_EXT) ||
  decide (internalFormat = GL_STENCIL_INDEX16_EXT)

/-- The arguments `(target, internalFormat, format, type)` of one call of
`ctx->Driver.ChooseTextureFormat`. -/
structure ChooseFormatCall where
  target : Nat
  internalFormat : Nat
  format : Nat
  type_ : Nat
  deriving DecidableEq, Repr

/-- The arguments `(format, width, height, num_samples)` of one call of
`intel_miptree_create_for_renderbuffer`. -/
structure CreateMiptreeCall where
  format : gl_format
  width : Nat
  height : Nat
  num_samples : Nat
  deriving DecidableEq, Repr

/-- What `intel_alloc_renderbuffer_storage` returns and does: the returned
`GLboolean`, the renderbuffer after the call, the region handed to
`intel_miptree_release` (the previous `irb->mt`), the calls made to the format
chooser and to the allocator, and whether the condition of the `assert` at line
219 was violated (the `assert` stops a build with assertions enabled and does
nothing otherwise; the other fields are those of a build without). -/
structure AllocStorageResult where
  ret : Bool
  rb : gl_renderbuffer
  released : Option MtPtr
  chooser_calls : List ChooseFormatCall
  allocator_calls : List CreateMiptreeCall
  assertion_failed : Bool

/-- Lines 199-223: the `switch (internalFormat)` that sets `rb->Format`.  The result is
the format, the calls made to the format chooser, and whether the condition of
the `assert` was violated. -/
def alloc_choose_format (ext : Collaborators) (brw : brw_context) (internalFormat : Nat) :
    gl_format × List ChooseFormatCall × Bool :=
  if is_stencil_index_format internalFormat then
    -- These aren't actual texture formats, so force them here.
    if brw.has_separate_stencil then (gl_format.MESA_FORMAT_S8, [], false)
    else (gl_format.MESA_FORMAT_S8_Z24, [], brw.must_use_separate_stencil)
  else
    (ext.ChooseTextureFormat brw GL_TEXTURE_2D internalFormat GL_NONE GL_NONE,
     [{ target := GL_TEXTURE_2D, internalFormat := internalFormat,
        format := GL_NONE, type_ := GL_NONE }], false)

/-- Embedding of `intel_alloc_renderbuffer_storage` (lines 189-245).  The function reads
`irb->mt` through the downcast `intel_renderbuffer(rb)`, so a renderbuffer that is
not a driver Surface faults. -/
def intel_alloc_renderbuffer_storage (ext : Collaborators) (brw : brw_context)
    (rb : gl_renderbuffer) (internalFormat : Nat) (width height : Nat) :
    Except Fault AllocStorageResult :=
  match intel_renderbuffer (some rb) with
  | none => .error Fault.null_deref
  | some irb =>
    let num_samples := intel_quantize_num_samples brw.intelScreen rb.NumSamples
    let fmt := alloc_choose_format ext brw internalFormat
    -- rb->NumSamples, rb->Format, rb->Width, rb->Height, rb->_BaseFormat are written,
    -- then intel_miptree_release(&irb->mt) leaves irb->mt == NULL
    let rb1 : gl_renderbuffer :=
      { rb with NumSamples := num_samples, Format := fmt.1, Width := width, Height := height,
                _BaseFormat := ext._mesa_base_fbo_format brw internalFormat, mt := none }
    if width = 0 ∨ height = 0 then
      .ok { ret := true, rb := rb1, released := irb.mt, chooser_calls := fmt.2.1,
            allocator_calls := [], assertion_failed := fmt.2.2 }
    else
      let call : CreateMiptreeCall :=
        { format := fmt.1, width := width, height := height, num_samples := num_samples }
      match ext.intel_miptree_create_for_renderbuffer brw fmt.1 width height num_samples with
      | none =>
        .ok { ret := false, rb := rb1, released := irb.mt, chooser_calls := fmt.2.1,
              allocator_calls := [call], assertion_failed := fmt.2.2 }
      | some region =>
        .ok { ret := true, rb := { rb1 with mt := some region }, released := irb.mt,
              chooser_calls := fmt.2.1, allocator_calls := [call],
              assertion_failed := fmt.2.2 }

/-! ## Binding a texture image as a render target (`intel_fbo.c` lines 409-512) -/

/-- Modelled from the spec: `intel_miptree_slice_set_needs_hiz_resolve` of
`intel_mipmap_tree.c`, which is not among the sources.  Section 4.5
(`setNeedsAuxResolve`) says it marks exactly the slice `(level, layer)` of the
region, independently of every other slice. -/
def intel_miptree_slice_set_needs_hiz_resolve (mts : MtStore) (mt : MtPtr)
    (level layer : Nat) : MtStore :=
  fun p => if p = mt then
      { mts p with needs_hiz_resolve := (level, layer) :: (mts p).needs_hiz_resolve }
    else mts p

/-- Modelled from the spec: `intel_miptree_slice_set_needs_depth_resolve` of
`intel_mipmap_tree.c`, which is not among the sources.  Section 4.5
(`setNeedsPrimaryResolve`) says it marks exactly the slice `(level, layer)` of the
region, independently of every other slice. -/
def intel_miptree_slice_set_needs_depth_resolve (mts : MtStore) (mt : MtPtr)
    (level layer : Nat) : MtStore :=
  fun p => if p = mt then
      { mts p with needs_depth_resolve := (level, layer) :: (mts p).needs_depth_resolve }
    else mts p

/-- Modelled from the spec: `intel_miptree_slice_resolve_hiz` of `intel_mipmap_tree.c`,
which is not among the sources.  Section 4.5 (`resolveAux`) says: return
immediately (success, no-op) if the flag of the slice is already clear; otherwise
perform the hardware operation and clear the flag; the result is a boolean
success. -/
def intel_miptree_slice_resolve_hiz (ext : Collaborators) (brw : brw_context) (mts : MtStore)
    (mt : MtPtr) (level layer : Nat) : Bool × MtStore :=
  if (level, layer) ∈ (mts mt).needs_hiz_resolve then
    (ext.hiz_resolve_op brw mts mt level layer,
     fun p => if p = mt then
         { mts p with needs_hiz_resolve :=
             (mts p).needs_hiz_resolve.filter (fun sl => decide (sl ≠ (level, layer))) }
       else mts p)
  else (true, mts)

/-- Modelled from the spec: `intel_miptree_slice_resolve_depth` of `intel_mipmap_tree.c`,
which is not among the sources.  Section 4.5 (`resolvePrimary`) says: return
immediately (success, no-op) if the flag of the slice is already clear; otherwise
perform the hardware operation and clear the flag; the result is a boolean
success. -/
def intel_miptree_slice_resolve_depth (ext : Collaborators) (brw : brw_context) (mts : MtStore)
    (mt : MtPtr) (level layer : Nat) : Bool × MtStore :=
  if (level, layer) ∈ (mts mt).needs_depth_resolve then
    (ext.depth_resolve_op brw mts mt level layer,
     fun p => if p = mt then
         { mts p with needs_depth_resolve :=
             (mts p).needs_depth_resolve.filter (fun sl => decide (sl ≠ (level, layer))) }
       else mts p)
  else (true, mts)

/-- Embedding of `intel_renderbuffer_set_needs_hiz_resolve` (lines 799-807). -/
def intel_renderbuffer_set_needs_hiz_resolve (mts : MtStore) (irb : gl_renderbuffer) : MtStore :=
  match irb.mt with
  | some mt => intel_miptree_slice_set_needs_hiz_resolve mts mt irb.mt_level irb.mt_layer
  | none => mts

/-- Embedding of `intel_renderbuffer_set_needs_depth_resolve` (lines 809-817). -/
def intel_renderbuffer_set_needs_depth_resolve (mts : MtStore) (irb : gl_renderbuffer) :
    MtStore :=
  match irb.mt with
  | some mt => intel_miptree_slice_set_needs_depth_resolve mts mt irb.mt_level irb.mt_layer
  | none => mts

/-- Embedding of `intel_renderbuffer_resolve_hiz` (lines 819-830): the returned `bool`
and the miptree store after the call. -/
def intel_renderbuffer_resolve_hiz (ext : Collaborators) (brw : brw_context) (mts : MtStore)
    (irb : gl_renderbuffer) : Bool × MtStore :=
  match irb.mt with
  | some mt => intel_miptree_slice_resolve_hiz ext brw mts mt irb.mt_level irb.mt_layer
  | none => (false, mts)

/-- Embedding of `intel_renderbuffer_resolve_depth` (lines 832-843): the returned `bool`
and the miptree store after the call. -/
def intel_renderbuffer_resolve_depth (ext : Collaborators) (brw : brw_context) (mts : MtStore)
    (irb : gl_renderbuffer) : Bool × MtStore :=
  match irb.mt with
  | some mt => intel_miptree_slice_resolve_depth ext brw mts mt irb.mt_level irb.mt_layer
  | none => (false, mts)

/-- The needs-HiZ-resolve flag of the current slice of a Surface; a Surface without
region has no flag set. -/
def surface_needs_hiz_resolve (mts : MtStore) (irb : gl_renderbuffer) : Bool :=
  match irb.mt with
  | some mt => decide ((irb.mt_level, irb.mt_layer) ∈ (mts mt).needs_hiz_resolve)
  | none => false

/-- The needs-depth-resolve flag of the current slice of a Surface; a Surface without
region has no flag set. -/
def surface_needs_depth_resolve (mts : MtStore) (irb : gl_renderbuffer) : Bool :=
  match irb.mt with
  | some mt => decide ((irb.mt_level, irb.mt_layer) ∈ (mts mt).needs_depth_resolve)
  | none => false

/-! ## Mapping a renderbuffer (`intel_fbo.c` lines 80-130) -/

/-- The arguments of the `intel_miptree_map` call of lines 116-117. -/
structure MiptreeMapCall where
  mt : Option MtPtr
  level : Nat
  layer : Nat
  x : Nat
  y : Nat
  w : Nat
  h : Nat
  mode : Nat
  deriving DecidableEq, Repr

/-- What `intel_map_renderbuffer` writes and does: `*out_map` (an address),
`*out_stride`, and the `intel_miptree_map` call it made, if any. -/
structure MapRenderbufferResult where
  out_map : Int
  out_stride : Int
  map_call : Option MiptreeMapCall
  deriving DecidableEq, Repr

/-- The value of a `GLuint` expression whose mathematical value is `n`, reduced to 32
bits. -/
def wrap_GLuint (n : Int) : Int := n % 4294967296

/-- Embedding of `intel_map_renderbuffer` (lines 83-130).  `rb` is the renderbuffer as
the function finds it; addresses are integers, and an offset of type `GLuint` is
added to an address without reduction.  The operands of `y * rowStride`,
`x * bpp` and `(h - 1) * stride` are a `GLuint` and an `int`, so each product is
computed in 32-bit unsigned arithmetic.  When the renderbuffer has no malloc'd
buffer the function reads `irb->mt` through the downcast, so a renderbuffer that
is not a driver Surface faults. -/
def intel_map_renderbuffer (ext : Collaborators) (brw : brw_context) (mts : MtStore)
    (rb : gl_renderbuffer) (x y w h : Nat) (mode : Nat) : Except Fault MapRenderbufferResult :=
  match rb.Buffer with
  | some buffer =>
    -- this is a malloc'd renderbuffer (accum buffer), not an irb
    let bpp := ext._mesa_get_format_bytes rb.Format
    let rowStride := rb.RowStride
    .ok { out_map := buffer + wrap_GLuint ((y : Int) * wrap_GLuint rowStride)
                       + wrap_GLuint ((x : Int) * wrap_GLuint bpp),
          out_stride := rowStride,
          map_call := none }
  | none =>
    match intel_renderbuffer (some rb) with
    | none => .error Fault.null_deref
    | some irb =>
      let brw1 := ext.intel_prepare_render brw
      -- if (rb->Name == 0) y = rb->Height - y - h;
      let y1 : Nat := if rb.Name = 0 then to_GLuint ((rb.Height : Int) - (y : Int) - (h : Int))
                      else y
      let m := ext.intel_miptree_map brw1 mts irb.mt irb.mt_level irb.mt_layer x y1 w h mode
      let call : MiptreeMapCall :=
        { mt := irb.mt, level := irb.mt_level, layer := irb.mt_layer,
          x := x, y := y1, w := w, h := h, mode := mode }
      if rb.Name = 0 then
        -- map += (h - 1) * stride; stride = -stride;
        .ok { out_map := m.1 + wrap_GLuint (wrap_GLuint ((h : Int) - 1) * wrap_GLuint m.2),
              out_stride := wrap_GLint (-m.2),
              map_call := some call }
      else
        .ok { out_map := m.1, out_stride := m.2, map_call := some call }

/-! ## Concrete configurations used to evaluate the embedding -/

/-- Collaborators that accept every render target, linearise no format, let every
engine copy succeed and leave every blit to the later stages; `hiz` is the answer
of the HiZ query.  The format chooser answers `other` of the internal format, the
allocator always returns the region at address 3, every format but
`MESA_FORMAT_S8` is a HiZ depth format, the HiZ allocation always fails (it leaves
the store as it is), the resolve operations succeed, a pixel has 4 bytes, and the
miptree map places row `y` at address `4096 + 64 * y` with a stride of 64. -/
def ex_collaborators (hiz : Bool) : Collaborators :=
  { intel_miptree_slice_has_hiz := fun _ _ _ _ => hiz
    brw_render_target_supported := fun _ _ => true
    _mesa_get_srgb_format_linear := fun f => f
    intel_prepare_render := fun c => c
    intel_miptree_blit := fun _ _ => true
    brw_blorp_framebuffer := fun c _ m _ => (m, c)
    ChooseTextureFormat := fun _ _ internalFormat _ _ => gl_format.other internalFormat
    _mesa_base_fbo_format := fun _ internalFormat => internalFormat
    intel_miptree_create_for_renderbuffer := fun _ _ _ _ _ => some 3
    intel_miptree_check_level_layer := fun _ _ _ _ => true
    intel_miptree_get_image_offset := fun _ _ level layer => (16 * level, 16 * layer)
    brw_is_hiz_depth_format := fun _ f => decide (f ≠ gl_format.MESA_FORMAT_S8)
    intel_miptree_alloc_hiz := fun _ mts _ => mts
    hiz_resolve_op := fun _ _ _ _ _ => true
    depth_resolve_op := fun _ _ _ _ _ => true
    _mesa_get_format_bytes := fun _ => 4
    intel_miptree_map := fun _ _ _ _ _ x y _ _ _ => (4096 + 64 * (y : Int) + 4 * (x : Int), 64) }

/-- A miptree store: at address 1 a depth miptree whose stencil was split off into the
S8 miptree at address 2; at address 3 a packed depth/stencil miptree; at address 4
a second packed miptree. -/
def ex_store : MtStore := fun p =>
  if p = 1 then { format := gl_format.other 0, stencil_mt := some 2 }
  else if p = 2 then { format := gl_format.MESA_FORMAT_S8 }
  else { format := gl_format.MESA_FORMAT_S8_Z24 }

/-- A generation-7 context with separate stencil. -/
def ex_brw_gen7 : brw_context :=
  { intelScreen := { gen := 7 }, gen := 7, has_separate_stencil := true,
    must_use_separate_stencil := true }

/-- A generation-6 context with separate stencil. -/
def ex_brw_gen6 : brw_context :=
  { intelScreen := { gen := 6 }, gen := 6, has_separate_stencil := true }

/-- A generation-5 context, without separate stencil. -/
def ex_brw_gen5 : brw_context := { intelScreen := { gen := 5 }, gen := 5 }

/-- A driver Surface wrapping level `level` of the texture whose miptree is at `mt`. -/
def ex_texture_surface (mt : MtPtr) (level : Nat) : gl_renderbuffer :=
  { ClassID := INTEL_RB_CLASS, TexImage := some { Level := level }, mt := some mt,
    mt_level := level }

/-- A driver renderbuffer of size 16x16 whose region is at `mt`. -/
def ex_renderbuffer (mt : MtPtr) : gl_renderbuffer :=
  { Name := 1, ClassID := INTEL_RB_CLASS, Width := 16, Height := 16, mt := some mt }

/-- A driver renderbuffer whose storage was allocated with width 0 and height 0: it
has no region. -/
def ex_renderbuffer_no_region : gl_renderbuffer :=
  { Name := 2, ClassID := INTEL_RB_CLASS, Width := 0, Height := 0, mt := none }

/-- A complete framebuffer with the given depth and stencil slots and nothing else. -/
def ex_fb_depth_stencil (depth stencil : gl_renderbuffer_attachment) : gl_framebuffer :=
  { _Status := GL_FRAMEBUFFER_COMPLETE
    Attachment := fun i =>
      if i = BUFFER_DEPTH then depth else if i = BUFFER_STENCIL then stencil else {} }

/-- Levels 0 and 1 of the depth/stencil texture with miptree 1 (split stencil) bound
as depth and as stencil. -/
def ex_fb_split_levels : gl_framebuffer :=
  ex_fb_depth_stencil { Type_ := GL_TEXTURE, Renderbuffer := some (ex_texture_surface 1 0) }
    { Type_ := GL_TEXTURE, Renderbuffer := some (ex_texture_surface 1 1) }

/-- Levels 0 and 1 of the packed depth/stencil texture with miptree 3 bound as depth
and as stencil. -/
def ex_fb_packed_levels : gl_framebuffer :=
  ex_fb_depth_stencil { Type_ := GL_TEXTURE, Renderbuffer := some (ex_texture_surface 3 0) }
    { Type_ := GL_TEXTURE, Renderbuffer := some (ex_texture_surface 3 1) }

/-- Level 0 of the depth/stencil texture with miptree 1 (split stencil) bound as depth
and as stencil; the texture image has no border. -/
def ex_fb_split_same : gl_framebuffer :=
  ex_fb_depth_stencil { Type_ := GL_TEXTURE, Renderbuffer := some (ex_texture_surface 1 0) }
    { Type_ := GL_TEXTURE, Renderbuffer := some (ex_texture_surface 1 0) }

/-- Level 0 of the packed depth/stencil texture with miptree 3 bound as depth and as
stencil; the texture image has no border. -/
def ex_fb_packed_same : gl_framebuffer :=
  ex_fb_depth_stencil { Type_ := GL_TEXTURE, Renderbuffer := some (ex_texture_surface 3 0) }
    { Type_ := GL_TEXTURE, Renderbuffer := some (ex_texture_surface 3 0) }

/-- The renderbuffer without region bound as stencil, nothing bound as depth. -/
def ex_fb_stencil_no_region : gl_framebuffer :=
  ex_fb_depth_stencil {}
    { Type_ := GL_RENDERBUFFER, Renderbuffer := some ex_renderbuffer_no_region }

/-- The renderbuffer without region bound as depth, nothing bound as stencil. -/
def ex_fb_depth_no_region : gl_framebuffer :=
  ex_fb_depth_stencil { Type_ := GL_RENDERBUFFER, Renderbuffer := some ex_renderbuffer_no_region }
    {}

/-- A complete framebuffer whose first colour slot (index 8) is a texture slot that
was never given a renderbuffer. -/
def ex_fb_null_slot : gl_framebuffer :=
  { _Status := GL_FRAMEBUFFER_COMPLETE
    Attachment := fun i => if i = 8 then { Type_ := GL_TEXTURE, Renderbuffer := none } else {} }

/-- A context whose read framebuffer (16x16) reads from the renderbuffer with region 3
and whose draw framebuffer (16x16) has one colour draw buffer, the renderbuffer
with region 4; no scissor. -/
def ex_brw_blit : brw_context :=
  { gen := 7
    ReadBuffer := { Width := 16, Height := 16, _ColorReadBuffer := some (ex_renderbuffer 3) }
    DrawBuffer := { Width := 16, Height := 16, _NumColorDrawBuffers := 1,
                    _ColorDrawBuffers := fun _ => some (ex_renderbuffer 4) } }

/-- An 8x8 source rectangle at (0,0) and an 8x8 destination rectangle at (4,4). -/
def ex_rect_same_size : BlitRect :=
  { srcX0 := 0, srcY0 := 0, srcX1 := 8, srcY1 := 8, dstX0 := 4, dstY0 := 4, dstX1 := 12, dstY1 := 12 }

/-- An 8x8 source rectangle and a 4x4 destination rectangle. -/
def ex_rect_scaled : BlitRect :=
  { srcX0 := 0, srcY0 := 0, srcX1 := 8, srcY1 := 8, dstX0 := 4, dstY0 := 4, dstX1 := 8, dstY1 := 8 }

/-- Collaborators whose accelerated stage satisfies every bit it is asked for. -/
def ex_collaborators_blorp_all : Collaborators :=
  { ex_collaborators true with brw_blorp_framebuffer := fun c _ _ _ => (0, c) }

/-- Collaborators whose storage allocator always fails. -/
def ex_collaborators_no_memory : Collaborators :=
  { ex_collaborators true with intel_miptree_create_for_renderbuffer := fun _ _ _ _ _ => none }

/-- A user renderbuffer with region 4 for which 5 samples were requested. -/
def ex_renderbuffer_5_samples : gl_renderbuffer :=
  { Name := 3, ClassID := INTEL_RB_CLASS, NumSamples := 5, Width := 8, Height := 8,
    mt := some 4, AllocStorage := alloc_storage_fn.intel_alloc_renderbuffer_storage }

/-- A window-system Surface (name 0) of 16x16 pixels with region 3. -/
def ex_window_surface : gl_renderbuffer :=
  { Name := 0, ClassID := INTEL_RB_CLASS, Width := 16, Height := 16, mt := some 3 }

/-- C1: for every generation and every requested count the quantizer of the code equals
the reference definition (zero for a zero request or a generation other than 6 and
7, four on generation 6, and on generation 7 the smallest of 4 and 8 that is at
least the request, or 8 beyond that); on generation 7 the requests 0, 1, 4, 5, 8
and 100 give 0, 4, 4, 8, 8 and 8. -/
theorem intel_quantize_num_samples_eq_reference :
    (∀ (g : Int) (n : Nat), intel_quantize_num_samples { gen := g } n = quantize_reference g n) ∧
    (∀ (g : Int) (n : Nat), intel_quantize_num_samples { gen := g } n =
        if n = 0 ∨ (g ≠ 6 ∧ g ≠ 7) then 0
        else if g = 6 then 4
        else if n ≤ 4 then 4 else 8) ∧
    intel_quantize_num_samples { gen := 7 } 0 = 0 ∧
    intel_quantize_num_samples { gen := 7 } 1 = 4 ∧
    intel_quantize_num_samples { gen := 7 } 4 = 4 ∧
    intel_quantize_num_samples { gen := 7 } 5 = 8 ∧
    intel_quantize_num_samples { gen := 7 } 8 = 8 ∧
    intel_quantize_num_samples { gen := 7 } 100 = 8 := by
  refine ⟨?_, ?_, by decide, by decide, by decide, by decide, by decide, by decide⟩
  · intro g n
    unfold intel_quantize_num_samples quantize_reference supported_sample_counts
    by_cases h6 : g = 6
    · subst h6
      by_cases h0 : n = 0
      · simp [h0]
      · by_cases h4 : n ≤ 4
        · have hpos : n > 0 := Nat.pos_of_ne_zero h0
          simp [h0, h4, hpos, List.find?]
        · have hpos : n > 0 := Nat.pos_of_ne_zero h0
          simp [h0, h4, hpos, List.find?]
    · by_cases h7 : g = 7
      · subst h7
        by_cases h0 : n = 0
        · simp [h0]
        · have hpos : n > 0 := Nat.pos_of_ne_zero h0
          by_cases h4 : n ≤ 4
          · have hn4 : ¬ n > 4 := by omega
            simp [h0, h4, hpos, hn4, List.find?]
          · have hg4 : n > 4 := by omega
            by_cases h8 : n ≤ 8
            · simp [h0, h4, hpos, hg4, h8, List.find?]
            · simp [h0, h4, hpos, hg4, h8, List.find?]
      · by_cases h0 : n = 0
        · simp [h0, h6, h7]
        · simp [h0, h6, h7, List.find?]
  · intro g n
    unfold intel_quantize_num_samples
    by_cases h6 : g = 6
    · subst h6
      by_cases h0 : n = 0
      · simp [h0]
      · have hpos : n > 0 := Nat.pos_of_ne_zero h0
        simp [h0, hpos]
    · by_cases h7 : g = 7
      · subst h7
        by_cases h0 : n = 0
        · simp [h0]
        · have hpos : n > 0 := Nat.pos_of_ne_zero h0
          by_cases h4 : n ≤ 4
          · have hn4 : ¬ n > 4 := by omega
            simp [h0, h4, hpos, hn4]
          · have hg4 : n > 4 := by omega
            simp [h0, h4, hpos, hg4]
      · simp [h6, h7]

/-- C10: for a fixed generation the quantizer is monotonic non-decreasing in the
requested count. -/
theorem intel_quantize_num_samples_mono (g : Int) (m n : Nat) (h : m ≤ n) :
    intel_quantize_num_samples { gen := g } m ≤ intel_quantize_num_samples { gen := g } n := by
  unfold intel_quantize_num_samples
  simp only []
  split_ifs <;> omega

/-- Witness of C10 on generation 7 at the requests 3 and 5, which quantise to 4 and 8. -/
theorem intel_quantize_num_samples_mono_witness :
    (3 : Nat) ≤ 5 ∧
    intel_quantize_num_samples { gen := 7 } 3 ≤ intel_quantize_num_samples { gen := 7 } 5 ∧
    intel_quantize_num_samples { gen := 7 } 3 = 4 ∧
    intel_quantize_num_samples { gen := 7 } 5 = 8 :=
  ⟨by decide, intel_quantize_num_samples_mono 7 3 5 (by decide), by decide, by decide⟩

/-! ## Lemmas on the completeness validator -/

/-- The macro sets the status "unsupported". -/
theorem fbo_incomplete_status (st : ValidateState) (d : FboDiag) :
    (fbo_incomplete st d).fb._Status = GL_FRAMEBUFFER_UNSUPPORTED := rfl

/-- The macro leaves the attachment slots alone. -/
theorem fbo_incomplete_attachment (st : ValidateState) (d : FboDiag) :
    (fbo_incomplete st d).fb.Attachment = st.fb.Attachment := rfl

/-- A slot either leaves the state alone or raises one diagnostic. -/
theorem attachment_step_cases (ext : Collaborators) (brw : brw_context) (st st1 : ValidateState)
    (att : gl_renderbuffer_attachment)
    (h : intel_validate_framebuffer_attachment ext brw st att = .ok st1) :
    st1 = st ∨ ∃ d, st1 = fbo_incomplete st d := by
  unfold intel_validate_framebuffer_attachment at h
  repeat' split at h
  all_goals
    first
    | (cases h; left; rfl)
    | (cases h; right; exact ⟨_, rfl⟩)
    | (cases h)

/-- A slot whose unchecked dereference is defined does not fault. -/
theorem attachment_step_total (ext : Collaborators) (brw : brw_context) (st : ValidateState)
    (att : gl_renderbuffer_attachment) (h : texture_image_present att = true) :
    ∃ st1, intel_validate_framebuffer_attachment ext brw st att = .ok st1 := by
  unfold texture_image_present at h
  unfold intel_validate_framebuffer_attachment attachment_has_border
  by_cases hN : att.Type_ = GL_NONE
  · exact ⟨st, by simp [hN]⟩
  · cases hrb : att.Renderbuffer with
    | none => exact ⟨fbo_incomplete st FboDiag.attachment_without_renderbuffer, by simp [hN]⟩
    | some rb =>
      by_cases hT : att.Type_ = GL_TEXTURE
      · cases himg : rb.TexImage with
        | none => simp [hT, hrb, himg] at h
        | some img =>
          simp only [hN, hT, himg, if_true, if_false]
          repeat' split
          all_goals first | exact ⟨_, rfl⟩ | simp_all
      · simp only [hN, hT, if_false]
        repeat' split
        all_goals exact ⟨_, rfl⟩

/-- A texture slot whose renderbuffer has no texture image faults. -/
theorem attachment_step_faults (ext : Collaborators) (brw : brw_context) (st : ValidateState)
    (att : gl_renderbuffer_attachment) (h : texture_image_present att = false) :
    intel_validate_framebuffer_attachment ext brw st att = .error Fault.null_deref := by
  unfold texture_image_present at h
  by_cases hT : att.Type_ = GL_TEXTURE
  · cases hrb : att.Renderbuffer with
    | none => simp [hT, hrb] at h
    | some rb =>
      cases himg : rb.TexImage with
      | some img => simp [hT, hrb, himg] at h
      | none =>
        have hN : GL_TEXTURE ≠ GL_NONE := by decide
        simp [intel_validate_framebuffer_attachment, attachment_has_border, hN, hT, hrb, himg]
  · simp [hT] at h

/-- A slot that passes every check leaves the state as it was. -/
theorem attachment_step_renderable (ext : Collaborators) (brw : brw_context) (st : ValidateState)
    (att : gl_renderbuffer_attachment) (h : attachment_renderable ext brw att = true) :
    intel_validate_framebuffer_attachment ext brw st att = .ok st := by
  unfold attachment_renderable at h
  unfold intel_validate_framebuffer_attachment attachment_has_border intel_renderbuffer
  by_cases hN : att.Type_ = GL_NONE
  · simp [hN]
  · cases hrb : att.Renderbuffer with
    | none => simp [hN, hrb] at h
    | some rb =>
      simp only [hN, hrb, if_false, Bool.and_eq_true, decide_eq_true_eq] at h
      obtain ⟨⟨hcls, himg⟩, hsup⟩ := h
      by_cases hT : att.Type_ = GL_TEXTURE
      · cases hti : rb.TexImage with
        | none => simp [hT, hti] at himg
        | some img =>
          simp only [hT, hti, if_true, decide_eq_true_eq] at himg
          simp [hN, hT, hti, himg, hcls, hsup]
      · simp [hN, hT, hcls, hsup]

/-- A non-empty slot without a renderbuffer raises its diagnostic. -/
theorem attachment_step_null (ext : Collaborators) (brw : brw_context) (st : ValidateState)
    (att : gl_renderbuffer_attachment) (hT : att.Type_ ≠ GL_NONE) (hR : att.Renderbuffer = none) :
    intel_validate_framebuffer_attachment ext brw st att
      = .ok (fbo_incomplete st FboDiag.attachment_without_renderbuffer) := by
  simp [intel_validate_framebuffer_attachment, hT, hR]

/-- The attachment loop never touches the slots, and never leaves the status
"unsupported" once it is set. -/
theorem attachments_ok_inv (ext : Collaborators) (brw : brw_context) (l : List Nat) :
    ∀ (st st1 : ValidateState),
      intel_validate_framebuffer_attachments ext brw l st = .ok st1 →
      st1.fb.Attachment = st.fb.Attachment ∧
      (st.fb._Status = GL_FRAMEBUFFER_UNSUPPORTED → st1.fb._Status = GL_FRAMEBUFFER_UNSUPPORTED) := by
  induction l with
  | nil =>
    intro st st1 h
    simp only [intel_validate_framebuffer_attachments] at h
    cases h
    exact ⟨rfl, id⟩
  | cons i rest ih =>
    intro st st1 h
    simp only [intel_validate_framebuffer_attachments] at h
    cases hstep : intel_validate_framebuffer_attachment ext brw st (st.fb.Attachment i) with
    | error e => simp [hstep] at h
    | ok st2 =>
      simp only [hstep] at h
      obtain ⟨hA, hS⟩ := ih st2 st1 h
      rcases attachment_step_cases ext brw st st2 _ hstep with heq | ⟨d, heq⟩
      · subst heq
        exact ⟨hA, hS⟩
      · subst heq
        exact ⟨hA, fun _ => hS rfl⟩

/-- The attachment loop returns when the unchecked dereference of every slot it
visits is defined. -/
theorem attachments_total (ext : Collaborators) (brw : brw_context) (l : List Nat) :
    ∀ (st : ValidateState),
      (∀ i, i ∈ l → texture_image_present (st.fb.Attachment i) = true) →
      ∃ st1, intel_validate_framebuffer_attachments ext brw l st = .ok st1 := by
  induction l with
  | nil => intro st _; exact ⟨st, rfl⟩
  | cons i rest ih =>
    intro st h
    obtain ⟨st2, hstep⟩ := attachment_step_total ext brw st (st.fb.Attachment i)
      (h i (List.mem_cons_self _ _))
    have hA : st2.fb.Attachment = st.fb.Attachment := by
      rcases attachment_step_cases ext brw st st2 _ hstep with heq | ⟨d, heq⟩
      · rw [heq]
      · rw [heq]; rfl
    obtain ⟨st1, h1⟩ := ih st2 (fun j hj => by rw [hA]; exact h j (List.mem_cons_of_mem _ hj))
    exact ⟨st1, by simp only [intel_validate_framebuffer_attachments, hstep, h1]⟩

/-- The attachment loop faults when it visits a texture slot whose renderbuffer has no
texture image. -/
theorem attachments_faults (ext : Collaborators) (brw : brw_context) (l : List Nat) :
    ∀ (st : ValidateState) (i : Nat), i ∈ l →
      texture_image_present (st.fb.Attachment i) = false →
      intel_validate_framebuffer_attachments ext brw l st = .error Fault.null_deref := by
  induction l with
  | nil => intro st i hi; cases hi
  | cons j rest ih =>
    intro st i hi hbad
    simp only [intel_validate_framebuffer_attachments]
    cases hstep : intel_validate_framebuffer_attachment ext brw st (st.fb.Attachment j) with
    | error e => cases e; rfl
    | ok st2 =>
      have hA : st2.fb.Attachment = st.fb.Attachment := by
        rcases attachment_step_cases ext brw st st2 _ hstep with heq | ⟨d, heq⟩
        · rw [heq]
        · rw [heq]; rfl
      rcases List.mem_cons.mp hi with hij | hrest
      · subst hij
        rw [attachment_step_faults ext brw st _ hbad] at hstep
        cases hstep
      · exact ih st2 i hrest (by rw [hA]; exact hbad)

/-- A visited non-empty slot without a renderbuffer makes the loop end with the status
"unsupported". -/
theorem attachments_null_slot (ext : Collaborators) (brw : brw_context) (l : List Nat) :
    ∀ (st st1 : ValidateState) (i : Nat), i ∈ l →
      (st.fb.Attachment i).Type_ ≠ GL_NONE → (st.fb.Attachment i).Renderbuffer = none →
      intel_validate_framebuffer_attachments ext brw l st = .ok st1 →
      st1.fb._Status = GL_FRAMEBUFFER_UNSUPPORTED := by
  induction l with
  | nil => intro st st1 i hi; cases hi
  | cons j rest ih =>
    intro st st1 i hi hT hR h
    simp only [intel_validate_framebuffer_attachments] at h
    cases hstep : intel_validate_framebuffer_attachment ext brw st (st.fb.Attachment j) with
    | error e => simp [hstep] at h
    | ok st2 =>
      simp only [hstep] at h
      have hA : st2.fb.Attachment = st.fb.Attachment := by
        rcases attachment_step_cases ext brw st st2 _ hstep with heq | ⟨d, heq⟩
        · rw [heq]
        · rw [heq]; rfl
      rcases List.mem_cons.mp hi with hij | hrest
      · subst hij
        rw [attachment_step_null ext brw st _ hT hR] at hstep
        cases hstep
        exact (attachments_ok_inv ext brw rest _ st1 h).2 rfl
      · exact ih st2 st1 i hrest (by rw [hA]; exact hT) (by rw [hA]; exact hR) h

/-- When every visited slot passes every check the loop returns the state it got. -/
theorem attachments_renderable (ext : Collaborators) (brw : brw_context) (l : List Nat)
    (st : ValidateState)
    (h : ∀ i, i ∈ l → attachment_renderable ext brw (st.fb.Attachment i) = true) :
    intel_validate_framebuffer_attachments ext brw l st = .ok st := by
  induction l with
  | nil => rfl
  | cons j rest ih =>
    simp only [intel_validate_framebuffer_attachments]
    rw [attachment_step_renderable ext brw st _ (h j (List.mem_cons_self _ _))]
    exact ih (fun i hi => h i (List.mem_cons_of_mem _ hi))

/-- The depth/stencil step faults when the stencil Surface has no region. -/
theorem depth_stencil_faults (ext : Collaborators) (brw : brw_context) (mts : MtStore)
    (st : ValidateState) (h : stencil_region_present st.fb = false) :
    intel_validate_framebuffer_depth_stencil ext brw mts st = .error Fault.null_deref := by
  unfold stencil_region_present at h
  cases hs : intel_get_renderbuffer st.fb BUFFER_STENCIL with
  | none => simp [hs] at h
  | some s =>
    cases hm : s.mt with
    | some p => simp [hs, hm] at h
    | none =>
      simp [intel_validate_framebuffer_depth_stencil, resolve_stencil_mt, hs, hm]

/-- The depth/stencil step on a framebuffer whose depth and stencil Surfaces resolve
to one and the same region. -/
theorem depth_stencil_same_region (ext : Collaborators) (brw : brw_context) (mts : MtStore)
    (st : ValidateState) (d s : gl_renderbuffer) (p : MtPtr)
    (hd : intel_get_renderbuffer st.fb BUFFER_DEPTH = some d)
    (hs : intel_get_renderbuffer st.fb BUFFER_STENCIL = some s)
    (hdm : resolve_depth_mt (some d) = some p)
    (hsm : resolve_stencil_mt mts (some s) = .ok (some p)) :
    intel_validate_framebuffer_depth_stencil ext brw mts st =
      .ok (if d.mt_level ≠ s.mt_level ∨ d.mt_layer ≠ s.mt_layer then
             fbo_incomplete st FboDiag.depth_stencil_level_layer_mismatch
           else st) := by
  simp only [intel_validate_framebuffer_depth_stencil, hd, hs, hdm, hsm]
  split_ifs <;> simp_all

/-- The depth/stencil step on a framebuffer whose depth and stencil Surfaces resolve
to two different regions: the three checks of the separate-stencil path, in order. -/
theorem depth_stencil_different_regions (ext : Collaborators) (brw : brw_context)
    (mts : MtStore) (st : ValidateState) (d s : gl_renderbuffer) (p q : MtPtr)
    (hd : intel_get_renderbuffer st.fb BUFFER_DEPTH = some d)
    (hs : intel_get_renderbuffer st.fb BUFFER_STENCIL = some s)
    (hdm : resolve_depth_mt (some d) = some p)
    (hsm : resolve_stencil_mt mts (some s) = .ok (some q))
    (hne : p ≠ q) :
    intel_validate_framebuffer_depth_stencil ext brw mts st =
      .ok (
        let st1 := if brw.has_separate_stencil = false then
            fbo_incomplete st FboDiag.separate_stencil_unsupported else st
        let st2 := if (mts q).format ≠ gl_format.MESA_FORMAT_S8 then
            fbo_incomplete st1 FboDiag.separate_stencil_not_S8 else st1
        if brw.gen < 7 ∧ intel_renderbuffer_has_hiz ext mts d = false then
            fbo_incomplete st2 FboDiag.separate_stencil_without_hiz else st2) := by
  simp only [intel_validate_framebuffer_depth_stencil, hd, hs, hdm, hsm, hne, if_false]

/-- The depth/stencil step returns when the stencil Surface, if any, has a region; it
never touches the slots, and it either leaves the state alone or sets the status
"unsupported". -/
theorem depth_stencil_ok (ext : Collaborators) (brw : brw_context) (mts : MtStore)
    (st : ValidateState) (h : stencil_region_present st.fb = true) :
    ∃ st1, intel_validate_framebuffer_depth_stencil ext brw mts st = .ok st1 ∧
      st1.fb.Attachment = st.fb.Attachment ∧
      (st1 = st ∨ st1.fb._Status = GL_FRAMEBUFFER_UNSUPPORTED) := by
  unfold stencil_region_present at h
  cases hs : intel_get_renderbuffer st.fb BUFFER_STENCIL with
  | none =>
    refine ⟨st, ?_, rfl, Or.inl rfl⟩
    simp only [intel_validate_framebuffer_depth_stencil, hs, resolve_stencil_mt]
    split <;> simp_all
  | some s =>
    cases hm : s.mt with
    | none => simp [hs, hm] at h
    | some p0 =>
      have hres : ∃ q, resolve_stencil_mt mts (some s) = .ok (some q) := by
        unfold resolve_stencil_mt
        simp only [hm]
        split <;> exact ⟨_, rfl⟩
      obtain ⟨q, hq⟩ := hres
      cases hd : intel_get_renderbuffer st.fb BUFFER_DEPTH with
      | none =>
        refine ⟨st, ?_, rfl, Or.inl rfl⟩
        simp only [intel_validate_framebuffer_depth_stencil, hs, hd, hq, resolve_depth_mt]
      | some d =>
        cases hdm : d.mt with
        | none =>
          refine ⟨st, ?_, rfl, Or.inl rfl⟩
          simp only [intel_validate_framebuffer_depth_stencil, hs, hd, hq, resolve_depth_mt, hdm]
        | some p =>
          have hdm2 : resolve_depth_mt (some d) = some p := by simp [resolve_depth_mt, hdm]
          by_cases hpq : p = q
          · subst hpq
            rw [depth_stencil_same_region ext brw mts st d s p hd hs hdm2 hq]
            split_ifs
            · exact ⟨_, rfl, rfl, Or.inr rfl⟩
            · exact ⟨_, rfl, rfl, Or.inl rfl⟩
          · rw [depth_stencil_different_regions ext brw mts st d s p q hd hs hdm2 hq hpq]
            simp only []
            split_ifs <;> first
              | exact ⟨_, rfl, rfl, Or.inl rfl⟩
              | exact ⟨_, rfl, rfl, Or.inr rfl⟩

/-- The two halves of `validate_derefs_defined`. -/
theorem validate_derefs_defined_iff (fb : gl_framebuffer) :
    validate_derefs_defined fb = true ↔
      stencil_region_present fb = true ∧
      ∀ i, i ∈ List.range BUFFER_COUNT → texture_image_present (fb.Attachment i) = true := by
  simp [validate_derefs_defined, List.all_eq_true]

/-- Once the depth/stencil step has returned, the validator is the attachment loop. -/
theorem validate_after_depth_stencil (ext : Collaborators) (brw : brw_context) (mts : MtStore)
    (fb : gl_framebuffer) (st : ValidateState)
    (h : intel_validate_framebuffer_depth_stencil ext brw mts { fb := fb } = .ok st) :
    intel_validate_framebuffer ext brw mts fb =
      intel_validate_framebuffer_attachments ext brw (List.range BUFFER_COUNT) st := by
  simp only [intel_validate_framebuffer, h]

/-- The validator returns exactly on the framebuffers on which every pointer it
dereferences without a check is present; on the others it dereferences `NULL`. -/
theorem validate_returns_iff (ext : Collaborators) (brw : brw_context) (mts : MtStore)
    (fb : gl_framebuffer) :
    (∃ st, intel_validate_framebuffer ext brw mts fb = .ok st) ↔
      validate_derefs_defined fb = true := by
  rw [validate_derefs_defined_iff]
  constructor
  · rintro ⟨st, hst⟩
    cases hsp : stencil_region_present fb with
    | false =>
      have hf := depth_stencil_faults ext brw mts { fb := fb } hsp
      simp [intel_validate_framebuffer, hf] at hst
    | true =>
      refine ⟨rfl, ?_⟩
      obtain ⟨st1, hds, hA, _⟩ := depth_stencil_ok ext brw mts { fb := fb } hsp
      rw [validate_after_depth_stencil ext brw mts fb st1 hds] at hst
      intro i hi
      cases hti : texture_image_present (fb.Attachment i) with
      | true => rfl
      | false =>
        have hbad : texture_image_present (st1.fb.Attachment i) = false := by rw [hA]; exact hti
        rw [attachments_faults ext brw _ st1 i hi hbad] at hst
        cases hst
  · rintro ⟨hsp, hall⟩
    obtain ⟨st1, hds, hA, _⟩ := depth_stencil_ok ext brw mts { fb := fb } hsp
    rw [validate_after_depth_stencil ext brw mts fb st1 hds]
    exact attachments_total ext brw _ st1 (fun i hi => by rw [hA]; exact hall i hi)

/-- A status "unsupported" set by the depth/stencil step survives the attachment loop:
every return of the validator carries it, and the validator returns when the
pointers it dereferences without a check are present. -/
theorem validate_unsupported_of_depth_stencil (ext : Collaborators) (brw : brw_context)
    (mts : MtStore) (fb : gl_framebuffer) (st : ValidateState)
    (hds : intel_validate_framebuffer_depth_stencil ext brw mts { fb := fb } = .ok st)
    (hU : st.fb._Status = GL_FRAMEBUFFER_UNSUPPORTED) :
    (∀ st1, intel_validate_framebuffer ext brw mts fb = .ok st1 →
      st1.fb._Status = GL_FRAMEBUFFER_UNSUPPORTED) ∧
    (validate_derefs_defined fb = true →
      validate_status (intel_validate_framebuffer ext brw mts fb)
        = some GL_FRAMEBUFFER_UNSUPPORTED) := by
  have hpart : ∀ st1, intel_validate_framebuffer ext brw mts fb = .ok st1 →
      st1.fb._Status = GL_FRAMEBUFFER_UNSUPPORTED := by
    intro st1 hst1
    rw [validate_after_depth_stencil ext brw mts fb st hds] at hst1
    exact (attachments_ok_inv ext brw _ st st1 hst1).2 hU
  refine ⟨hpart, fun hdef => ?_⟩
  obtain ⟨st1, hst1⟩ := (validate_returns_iff ext brw mts fb).mpr hdef
  simp [validate_status, hst1, hpart st1 hst1]

/-! ## Theorems: completeness validation -/

/-- C2, as amended: when the depth region and the stencil region after unwrapping a
split stencil miptree are one and the same region and the two Surfaces differ in
level or in layer, every return of the validator leaves the status "unsupported",
and the validator does return, with that status, on every framebuffer on which
the pointers it dereferences without a check are present. -/
theorem validate_packed_level_layer_mismatch (ext : Collaborators) (brw : brw_context)
    (mts : MtStore) (fb : gl_framebuffer) (d s : gl_renderbuffer) (p : MtPtr)
    (hd : intel_get_renderbuffer fb BUFFER_DEPTH = some d)
    (hs : intel_get_renderbuffer fb BUFFER_STENCIL = some s)
    (hdm : resolve_depth_mt (some d) = some p)
    (hsm : resolve_stencil_mt mts (some s) = .ok (some p))
    (hne : d.mt_level ≠ s.mt_level ∨ d.mt_layer ≠ s.mt_layer) :
    (∀ st, intel_validate_framebuffer ext brw mts fb = .ok st →
      st.fb._Status = GL_FRAMEBUFFER_UNSUPPORTED) ∧
    (validate_derefs_defined fb = true →
      validate_status (intel_validate_framebuffer ext brw mts fb)
        = some GL_FRAMEBUFFER_UNSUPPORTED) := by
  have hds := depth_stencil_same_region ext brw mts { fb := fb } d s p hd hs hdm hsm
  rw [if_pos hne] at hds
  exact validate_unsupported_of_depth_stencil ext brw mts fb _ hds rfl

/-- Witness of C2 as amended: levels 0 and 1 of a packed depth/stencil texture, on a
generation without separate stencil. -/
theorem validate_packed_level_layer_mismatch_witness :
    intel_get_renderbuffer ex_fb_packed_levels BUFFER_DEPTH = some (ex_texture_surface 3 0) ∧
    intel_get_renderbuffer ex_fb_packed_levels BUFFER_STENCIL = some (ex_texture_surface 3 1) ∧
    ex_fb_packed_levels._Status = GL_FRAMEBUFFER_COMPLETE ∧
    validate_status
        (intel_validate_framebuffer (ex_collaborators true) ex_brw_gen5 ex_store ex_fb_packed_levels)
      = some GL_FRAMEBUFFER_UNSUPPORTED :=
  ⟨rfl, rfl, rfl,
   (validate_packed_level_layer_mismatch (ex_collaborators true) ex_brw_gen5 ex_store
     ex_fb_packed_levels (ex_texture_surface 3 0) (ex_texture_surface 3 1) 3
     rfl rfl rfl rfl (Or.inl (by decide))).2 (by decide)⟩

/-- C2, counterexample to the claim as stated: the depth and the stencil Surface point
at the same miptree (address 1) at levels 0 and 1, and the validator leaves the
status "complete", because that miptree has a split stencil miptree and the code
compares the depth region with the unwrapped stencil region. -/
theorem validate_same_miptree_mismatch_stays_complete :
    intel_get_renderbuffer ex_fb_split_levels BUFFER_DEPTH = some (ex_texture_surface 1 0) ∧
    intel_get_renderbuffer ex_fb_split_levels BUFFER_STENCIL = some (ex_texture_surface 1 1) ∧
    (ex_texture_surface 1 0).mt = (ex_texture_surface 1 1).mt ∧
    (ex_texture_surface 1 0).mt = some 1 ∧
    (ex_texture_surface 1 0).mt_level ≠ (ex_texture_surface 1 1).mt_level ∧
    validate_status
        (intel_validate_framebuffer (ex_collaborators true) ex_brw_gen7 ex_store ex_fb_split_levels)
      = some GL_FRAMEBUFFER_COMPLETE ∧
    validate_status
        (intel_validate_framebuffer (ex_collaborators true) ex_brw_gen7 ex_store ex_fb_split_levels)
      ≠ some GL_FRAMEBUFFER_UNSUPPORTED := by
  refine ⟨rfl, rfl, rfl, rfl, by decide, by decide, by decide⟩

/-- C3: when some attachment slot has a type other than `GL_NONE` and no renderbuffer,
every return of the validator leaves the status "unsupported", whatever the other
slots hold and whatever the status was on entry; and the validator does return,
with that status, on every framebuffer on which the pointers it dereferences
without a check are present. -/
theorem validate_null_renderbuffer_slot (ext : Collaborators) (brw : brw_context)
    (mts : MtStore) (fb : gl_framebuffer) (i : Nat)
    (hi : i < BUFFER_COUNT)
    (hT : (fb.Attachment i).Type_ ≠ GL_NONE)
    (hR : (fb.Attachment i).Renderbuffer = none) :
    (∀ st, intel_validate_framebuffer ext brw mts fb = .ok st →
      st.fb._Status = GL_FRAMEBUFFER_UNSUPPORTED) ∧
    (validate_derefs_defined fb = true →
      ∃ st, intel_validate_framebuffer ext brw mts fb = .ok st ∧
        st.fb._Status = GL_FRAMEBUFFER_UNSUPPORTED) := by
  have hpart : ∀ st, intel_validate_framebuffer ext brw mts fb = .ok st →
      st.fb._Status = GL_FRAMEBUFFER_UNSUPPORTED := by
    intro st hst
    have hdef := (validate_returns_iff ext brw mts fb).mp ⟨st, hst⟩
    obtain ⟨st1, hds, hA, _⟩ := depth_stencil_ok ext brw mts { fb := fb }
      ((validate_derefs_defined_iff fb).mp hdef).1
    rw [validate_after_depth_stencil ext brw mts fb st1 hds] at hst
    exact attachments_null_slot ext brw _ st1 st i (List.mem_range.mpr hi)
      (by rw [hA]; exact hT) (by rw [hA]; exact hR) hst
  refine ⟨hpart, fun hdef => ?_⟩
  obtain ⟨st, hst⟩ := (validate_returns_iff ext brw mts fb).mpr hdef
  exact ⟨st, hst, hpart st hst⟩

/-- Witness of C3: a complete framebuffer whose colour slot 8 is a texture slot without
renderbuffer. -/
theorem validate_null_renderbuffer_slot_witness :
    (ex_fb_null_slot.Attachment 8).Type_ ≠ GL_NONE ∧
    (ex_fb_null_slot.Attachment 8).Renderbuffer = none ∧
    ex_fb_null_slot._Status = GL_FRAMEBUFFER_COMPLETE ∧
    ∃ st, intel_validate_framebuffer (ex_collaborators true) ex_brw_gen7 ex_store ex_fb_null_slot
        = .ok st ∧ st.fb._Status = GL_FRAMEBUFFER_UNSUPPORTED :=
  ⟨by decide, rfl, rfl,
   (validate_null_renderbuffer_slot (ex_collaborators true) ex_brw_gen7 ex_store ex_fb_null_slot 8
     (by decide) (by decide) rfl).2 (by decide)⟩

/-- C4, as amended: when the depth region and the stencil region after unwrapping a
split stencil miptree are one and the same region, the two Surfaces have the same
level and layer, and every attachment slot passes the checks of the loop (empty,
or a driver Surface with a supported format and, for a texture slot, an image
with zero border), the validator returns the framebuffer as it was on entry and
raises no diagnostic: the cached status is unchanged. -/
theorem validate_packed_renderable_unchanged (ext : Collaborators) (brw : brw_context)
    (mts : MtStore) (fb : gl_framebuffer) (d s : gl_renderbuffer) (p : MtPtr)
    (hd : intel_get_renderbuffer fb BUFFER_DEPTH = some d)
    (hs : intel_get_renderbuffer fb BUFFER_STENCIL = some s)
    (hdm : resolve_depth_mt (some d) = some p)
    (hsm : resolve_stencil_mt mts (some s) = .ok (some p))
    (hlevel : d.mt_level = s.mt_level) (hlayer : d.mt_layer = s.mt_layer)
    (hall : ∀ i, i < BUFFER_COUNT → attachment_renderable ext brw (fb.Attachment i) = true) :
    intel_validate_framebuffer ext brw mts fb = .ok { fb := fb, diags := [] } ∧
    validate_status (intel_validate_framebuffer ext brw mts fb) = some fb._Status := by
  have hds := depth_stencil_same_region ext brw mts { fb := fb } d s p hd hs hdm hsm
  rw [if_neg (by simp [hlevel, hlayer])] at hds
  have hv : intel_validate_framebuffer ext brw mts fb = .ok { fb := fb, diags := [] } := by
    rw [validate_after_depth_stencil ext brw mts fb _ hds]
    exact attachments_renderable ext brw _ _ (fun i hi => hall i (List.mem_range.mp hi))
  exact ⟨hv, by rw [hv]; rfl⟩

/-- Witness of C4 as amended: level 0 of a packed depth/stencil texture bound as depth
and as stencil of a complete framebuffer. -/
theorem validate_packed_renderable_unchanged_witness :
    intel_get_renderbuffer ex_fb_packed_same BUFFER_DEPTH = some (ex_texture_surface 3 0) ∧
    intel_get_renderbuffer ex_fb_packed_same BUFFER_STENCIL = some (ex_texture_surface 3 0) ∧
    validate_status
        (intel_validate_framebuffer (ex_collaborators false) ex_brw_gen6 ex_store ex_fb_packed_same)
      = some GL_FRAMEBUFFER_COMPLETE :=
  ⟨rfl, rfl,
   (validate_packed_renderable_unchanged (ex_collaborators false) ex_brw_gen6 ex_store
     ex_fb_packed_same (ex_texture_surface 3 0) (ex_texture_surface 3 0) 3 rfl rfl rfl rfl rfl rfl
     (by decide)).2⟩

/-- C4, counterexample to the claim as stated: the depth and the stencil Surface point
at the same miptree (address 1) with the same level and layer, every non-empty
slot holds a driver Surface with a supported format and a texture image with zero
border, and the status goes from "complete" to "unsupported": the miptree has a
split stencil miptree, so the separate-stencil checks apply, and on generation 6
the depth slice has no HiZ. -/
theorem validate_same_miptree_renderable_becomes_unsupported :
    intel_get_renderbuffer ex_fb_split_same BUFFER_DEPTH = some (ex_texture_surface 1 0) ∧
    intel_get_renderbuffer ex_fb_split_same BUFFER_STENCIL = some (ex_texture_surface 1 0) ∧
    (ex_texture_surface 1 0).mt = some 1 ∧
    (ex_texture_surface 1 0).TexImage = some { Border := 0, Level := 0 } ∧
    (∀ i, i < BUFFER_COUNT →
      attachment_renderable (ex_collaborators false) ex_brw_gen6 (ex_fb_split_same.Attachment i)
        = true) ∧
    ex_fb_split_same._Status = GL_FRAMEBUFFER_COMPLETE ∧
    validate_status
        (intel_validate_framebuffer (ex_collaborators false) ex_brw_gen6 ex_store ex_fb_split_same)
      = some GL_FRAMEBUFFER_UNSUPPORTED := by
  refine ⟨rfl, rfl, rfl, rfl, by decide, rfl, by decide⟩

/-- C5, the code at the failing input: with a driver renderbuffer that has no region
in the stencil slot the validator dereferences `NULL` (`stencil_mt->stencil_mt`,
line 567), while the same renderbuffer in the depth slot is handled and the
validator returns with the status unchanged. -/
theorem validate_stencil_without_region_faults :
    intel_get_renderbuffer ex_fb_stencil_no_region BUFFER_STENCIL = some ex_renderbuffer_no_region ∧
    ex_renderbuffer_no_region.mt = none ∧
    intel_validate_framebuffer (ex_collaborators true) ex_brw_gen7 ex_store ex_fb_stencil_no_region
      = .error Fault.null_deref ∧
    validate_status
        (intel_validate_framebuffer (ex_collaborators true) ex_brw_gen7 ex_store
          ex_fb_depth_no_region)
      = some GL_FRAMEBUFFER_COMPLETE := by
  refine ⟨rfl, rfl, ?_, by decide⟩
  have hbad : stencil_region_present ex_fb_stencil_no_region = false := by decide
  have hf := depth_stencil_faults (ex_collaborators true) ex_brw_gen7 ex_store
    { fb := ex_fb_stencil_no_region } hbad
  simp only [intel_validate_framebuffer, hf]

/-- What the test at lines 690-698 establishes, for `GLint` coordinates and a draw
framebuffer whose dimensions fit in a `GLint`. -/
theorem blit_is_one_to_one_spec (brw : brw_context) (r : BlitRect)
    (hr : r.InRange)
    (hW : brw.DrawBuffer.Width < 2147483648) (hH : brw.DrawBuffer.Height < 2147483648)
    (h : blit_is_one_to_one brw r = true) :
    r.srcX1 - r.srcX0 = r.dstX1 - r.dstX0 ∧ r.srcY1 - r.srcY0 = r.dstY1 - r.dstY0 ∧
    r.srcX0 ≤ r.srcX1 ∧ r.srcY0 ≤ r.srcY1 ∧ r.dstX0 ≤ r.dstX1 ∧ r.dstY0 ≤ r.dstY1 ∧
    0 ≤ r.srcX0 ∧ r.srcX1 ≤ (brw.ReadBuffer.Width : Int) ∧
    0 ≤ r.srcY0 ∧ r.srcY1 ≤ (brw.ReadBuffer.Height : Int) ∧
    0 ≤ r.dstX0 ∧ r.dstX1 ≤ (brw.DrawBuffer.Width : Int) ∧
    0 ≤ r.dstY0 ∧ r.dstY1 ≤ (brw.DrawBuffer.Height : Int) ∧
    brw.ScissorEnabled = false := by
  simp only [blit_is_one_to_one, Bool.and_eq_true, decide_eq_true_eq, Bool.not_eq_true',
    wrap_GLint, to_GLuint] at h
  obtain ⟨⟨⟨⟨⟨⟨⟨⟨⟨⟨⟨⟨h1, h2⟩, h3⟩, h4⟩, h5⟩, h6⟩, h7⟩, h8⟩, h9⟩, h10⟩, h11⟩, h12⟩, h13⟩ := h
  simp only [BlitRect.InRange, InGLint] at hr
  obtain ⟨⟨a1, a2⟩, ⟨b1, b2⟩, ⟨c1, c2⟩, ⟨d1, d2⟩, ⟨e1, e2⟩, ⟨f1, f2⟩, ⟨g1, g2⟩, ⟨i1, i2⟩⟩ := hr
  refine ⟨?_, ?_, ?_, ?_, ?_, ?_, ?_, ?_, ?_, ?_, ?_, ?_, ?_, ?_, h13⟩ <;> omega

/-- When the loop over the draw buffers reports success, every draw buffer it visited
is a driver Surface whose linearised format is the source's, and one engine copy
was issued per draw buffer. -/
theorem blit_color_draw_buffers_true (ext : Collaborators) (brw : brw_context)
    (src_rb : gl_renderbuffer) (r : BlitRect) (l : List Nat) :
    ∀ (issued issued1 : List BlitCall),
      blit_color_draw_buffers ext brw src_rb r l issued = (true, issued1) →
      (∀ i, i ∈ l → ∃ dst_rb,
        intel_renderbuffer (brw.DrawBuffer._ColorDrawBuffers i) = some dst_rb ∧
        ext._mesa_get_srgb_format_linear dst_rb.Format
          = ext._mesa_get_srgb_format_linear src_rb.Format) ∧
      issued1.length = issued.length + l.length := by
  induction l with
  | nil =>
    intro issued issued1 h
    simp only [blit_color_draw_buffers, Prod.mk.injEq, true_and] at h
    subst h
    exact ⟨fun i hi => (by cases hi), rfl⟩
  | cons j rest ih =>
    intro issued issued1 h
    simp only [blit_color_draw_buffers] at h
    cases hdst : intel_renderbuffer (brw.DrawBuffer._ColorDrawBuffers j) with
    | none => simp [hdst] at h
    | some dst_rb =>
      simp only [hdst] at h
      by_cases hfmt : ext._mesa_get_srgb_format_linear src_rb.Format
          = ext._mesa_get_srgb_format_linear dst_rb.Format
      · by_cases hblit : ext.intel_miptree_blit issued (blit_call src_rb dst_rb r) = false
        · simp [hfmt, hblit] at h
        · simp only [hfmt, hblit, ne_eq, not_true_eq_false, if_false] at h
          obtain ⟨hall, hlen⟩ := ih _ _ h
          refine ⟨fun i hi => ?_, ?_⟩
          · rcases List.mem_cons.mp hi with hij | hrest
            · subst hij
              exact ⟨dst_rb, hdst, hfmt.symm⟩
            · exact hall i hrest
          · simp only [List.length_append, List.length_cons, List.length_nil] at hlen
            simp only [List.length_cons]
            omega
      · simp [hfmt] at h

/-- The direct engine copy returns the mask it was given or that mask without the
colour bit, and the latter only after the loop over the draw buffers succeeded. -/
theorem blitter_mask_cases (ext : Collaborators) (ctx : brw_context) (r : BlitRect)
    (mask filter : Nat) :
    ((intel_blit_framebuffer_with_blitter ext ctx r mask filter).mask = mask ∧
      (mask &&& GL_COLOR_BUFFER_BIT = 0 →
        (intel_blit_framebuffer_with_blitter ext ctx r mask filter).blits = [])) ∨
    ((intel_blit_framebuffer_with_blitter ext ctx r mask filter).mask = clear_color_bit mask ∧
      mask &&& GL_COLOR_BUFFER_BIT ≠ 0 ∧
      ∃ src_rb issued,
        intel_renderbuffer (ext.intel_prepare_render ctx).ReadBuffer._ColorReadBuffer
          = some src_rb ∧
        blit_is_one_to_one (ext.intel_prepare_render ctx) r = true ∧
        blit_color_draw_buffers ext (ext.intel_prepare_render ctx) src_rb r
          (List.range (ext.intel_prepare_render ctx).DrawBuffer._NumColorDrawBuffers) []
          = (true, issued)) := by
  unfold intel_blit_framebuffer_with_blitter
  simp only []
  by_cases hc : mask &&& GL_COLOR_BUFFER_BIT = 0
  · left
    simp [hc]
  · rw [if_pos hc]
    cases hsrc : intel_renderbuffer (ext.intel_prepare_render ctx).ReadBuffer._ColorReadBuffer with
    | none => left; exact ⟨rfl, fun h => absurd h hc⟩
    | some src_rb =>
      simp only []
      cases h11 : blit_is_one_to_one (ext.intel_prepare_render ctx) r with
      | false => left; exact ⟨by simp, fun h => absurd h hc⟩
      | true =>
        rw [if_neg (by simp)]
        cases hloop : blit_color_draw_buffers ext (ext.intel_prepare_render ctx) src_rb r
            (List.range (ext.intel_prepare_render ctx).DrawBuffer._NumColorDrawBuffers) [] with
        | mk ok issued =>
          cases ok with
          | false => left; exact ⟨rfl, fun h => absurd h hc⟩
          | true => right; exact ⟨rfl, hc, src_rb, issued, rfl, rfl, hloop⟩

/-- Clearing the colour bit of a 32-bit mask clears bit 14 and keeps every other bit. -/
theorem clear_color_bit_testBit (mask : Nat) (hmask : mask < 4294967296) (k : Nat) :
    (clear_color_bit mask).testBit k = (mask.testBit k && decide (k ≠ 14)) := by
  unfold clear_color_bit GL_COLOR_BUFFER_BIT
  rw [Nat.testBit_and]
  by_cases hk32 : k < 32
  · by_cases hk : k = 14
    · subst hk
      have h14 : (0xFFFFFFFF ^^^ 0x00004000 : Nat).testBit 14 = false := by decide
      rw [h14]
      simp
    · have hbit : (0xFFFFFFFF ^^^ 0x00004000 : Nat).testBit k = true := by
        interval_cases k <;> first | decide | exact absurd rfl hk
      rw [hbit]
      simp [hk]
  · have hpow : (2 : Nat) ^ 32 ≤ 2 ^ k := Nat.pow_le_pow_right (by decide) (by omega)
    have hlt : mask < 2 ^ k := lt_of_lt_of_le hmask (by simpa using hpow)
    rw [Nat.testBit_lt_two_pow hlt]
    simp

/-! ## Theorems: blit dispatch -/

/-- C7: the direct engine copy returns a mask other than the one it was given only
when the rectangles have equal width and height and non-negative extent, the source
rectangle lies in the read framebuffer and the destination rectangle in the draw
framebuffer, scissoring is off, the source and every active colour draw buffer are
driver Surfaces, and every draw buffer has the linearised format of the source;
the mask it returns is then the given mask without the colour bit.  Hence on every
input that violates one of these the mask is returned unchanged.  The coordinates
are `GLint` values and the draw framebuffer dimensions fit in a `GLint`. -/
theorem blitter_removes_color_only_when (ext : Collaborators) (ctx brw : brw_context)
    (r : BlitRect) (mask filter : Nat)
    (hbrw : brw = ext.intel_prepare_render ctx)
    (hr : r.InRange)
    (hW : brw.DrawBuffer.Width < 2147483648) (hH : brw.DrawBuffer.Height < 2147483648)
    (hchg : (intel_blit_framebuffer_with_blitter ext ctx r mask filter).mask ≠ mask) :
    (intel_blit_framebuffer_with_blitter ext ctx r mask filter).mask = clear_color_bit mask ∧
    r.srcX1 - r.srcX0 = r.dstX1 - r.dstX0 ∧ r.srcY1 - r.srcY0 = r.dstY1 - r.dstY0 ∧
    r.srcX0 ≤ r.srcX1 ∧ r.srcY0 ≤ r.srcY1 ∧ r.dstX0 ≤ r.dstX1 ∧ r.dstY0 ≤ r.dstY1 ∧
    0 ≤ r.srcX0 ∧ r.srcX1 ≤ (brw.ReadBuffer.Width : Int) ∧
    0 ≤ r.srcY0 ∧ r.srcY1 ≤ (brw.ReadBuffer.Height : Int) ∧
    0 ≤ r.dstX0 ∧ r.dstX1 ≤ (brw.DrawBuffer.Width : Int) ∧
    0 ≤ r.dstY0 ∧ r.dstY1 ≤ (brw.DrawBuffer.Height : Int) ∧
    brw.ScissorEnabled = false ∧
    ∃ src_rb, intel_renderbuffer brw.ReadBuffer._ColorReadBuffer = some src_rb ∧
      ∀ i, i < brw.DrawBuffer._NumColorDrawBuffers → ∃ dst_rb,
        intel_renderbuffer (brw.DrawBuffer._ColorDrawBuffers i) = some dst_rb ∧
        ext._mesa_get_srgb_format_linear dst_rb.Format
          = ext._mesa_get_srgb_format_linear src_rb.Format := by
  subst hbrw
  rcases blitter_mask_cases ext ctx r mask filter with ⟨hsame, _⟩ | ⟨hclr, _, src_rb, issued, hsrc, h11, hloop⟩
  · exact absurd hsame hchg
  · obtain ⟨g1, g2, g3, g4, g5, g6, g7, g8, g9, g10, g11, g12, g13, g14, g15⟩ :=
      blit_is_one_to_one_spec (ext.intel_prepare_render ctx) r hr hW hH h11
    refine ⟨hclr, g1, g2, g3, g4, g5, g6, g7, g8, g9, g10, g11, g12, g13, g14, g15,
      src_rb, hsrc, fun i hi => ?_⟩
    exact (blit_color_draw_buffers_true ext (ext.intel_prepare_render ctx) src_rb r _ [] issued
      hloop).1 i (List.mem_range.mpr hi)

/-- Witness of C7: an 8x8 copy between two 16x16 framebuffers of the same format loses
the colour bit and keeps the depth bit; the same request with a 4x4 destination
returns the mask unchanged and issues no engine copy. -/
theorem blitter_removes_color_only_when_witness :
    (intel_blit_framebuffer_with_blitter (ex_collaborators true) ex_brw_blit ex_rect_same_size
        (GL_COLOR_BUFFER_BIT ||| GL_DEPTH_BUFFER_BIT) GL_NEAREST).mask = GL_DEPTH_BUFFER_BIT ∧
    ex_rect_same_size.srcX1 - ex_rect_same_size.srcX0
      = ex_rect_same_size.dstX1 - ex_rect_same_size.dstX0 ∧
    (intel_blit_framebuffer_with_blitter (ex_collaborators true) ex_brw_blit ex_rect_scaled
        GL_COLOR_BUFFER_BIT GL_NEAREST).mask = GL_COLOR_BUFFER_BIT ∧
    (intel_blit_framebuffer_with_blitter (ex_collaborators true) ex_brw_blit ex_rect_scaled
        GL_COLOR_BUFFER_BIT GL_NEAREST).blits = [] :=
  ⟨by decide,
   (blitter_removes_color_only_when (ex_collaborators true) ex_brw_blit ex_brw_blit
      ex_rect_same_size (GL_COLOR_BUFFER_BIT ||| GL_DEPTH_BUFFER_BIT) GL_NEAREST rfl
      (by decide) (by decide) (by decide) (by decide)).2.1,
   by decide, by decide⟩

/-- C8: the blit entry point invokes the accelerated stage with the requested mask; it
invokes the direct engine copy, with the mask the accelerated stage returned, if
and only if that mask is not zero; it invokes the generic fallback, with the mask
the direct engine copy returned and the original rectangle and filter, if and only
if both returned masks are not zero; it invokes nothing else, and in this order. -/
theorem intel_blit_framebuffer_stage_chain (ext : Collaborators) (ctx ctx1 : brw_context)
    (r : BlitRect) (mask filter m1 m2 : Nat)
    (h1 : ext.brw_blorp_framebuffer ctx r mask filter = (m1, ctx1))
    (h2 : (intel_blit_framebuffer_with_blitter ext ctx1 r m1 filter).mask = m2) :
    intel_blit_framebuffer ext ctx r mask filter =
      [BlitStageCall.brw_blorp_framebuffer r mask filter] ++
        (if m1 = 0 then []
         else [BlitStageCall.intel_blit_framebuffer_with_blitter r m1 filter] ++
           (if m2 = 0 then [] else [BlitStageCall._mesa_meta_BlitFramebuffer r m2 filter])) ∧
    (BlitStageCall.intel_blit_framebuffer_with_blitter r m1 filter
        ∈ intel_blit_framebuffer ext ctx r mask filter ↔ m1 ≠ 0) ∧
    ((∃ r3 m3 f3, BlitStageCall._mesa_meta_BlitFramebuffer r3 m3 f3
        ∈ intel_blit_framebuffer ext ctx r mask filter) ↔ (m1 ≠ 0 ∧ m2 ≠ 0)) ∧
    (∀ r3 m3 f3, BlitStageCall._mesa_meta_BlitFramebuffer r3 m3 f3
        ∈ intel_blit_framebuffer ext ctx r mask filter → r3 = r ∧ m3 = m2 ∧ f3 = filter) ∧
    (∀ r3 m3 f3, BlitStageCall.intel_blit_framebuffer_with_blitter r3 m3 f3
        ∈ intel_blit_framebuffer ext ctx r mask filter → r3 = r ∧ m3 = m1 ∧ f3 = filter) := by
  have htrace : intel_blit_framebuffer ext ctx r mask filter =
      [BlitStageCall.brw_blorp_framebuffer r mask filter] ++
        (if m1 = 0 then []
         else [BlitStageCall.intel_blit_framebuffer_with_blitter r m1 filter] ++
           (if m2 = 0 then [] else [BlitStageCall._mesa_meta_BlitFramebuffer r m2 filter])) := by
    unfold intel_blit_framebuffer
    simp only [h1, h2]
    split_ifs <;> rfl
  refine ⟨htrace, ?_, ?_, ?_, ?_⟩
  · rw [htrace]
    by_cases hm1 : m1 = 0 <;> simp [hm1]
  · rw [htrace]
    by_cases hm1 : m1 = 0 <;> by_cases hm2 : m2 = 0 <;> simp [hm1, hm2]
  · rw [htrace]
    intro r3 m3 f3
    by_cases hm1 : m1 = 0 <;> by_cases hm2 : m2 = 0 <;> simp [hm1, hm2]
  · rw [htrace]
    intro r3 m3 f3
    by_cases hm1 : m1 = 0 <;> by_cases hm2 : m2 = 0 <;> simp [hm1, hm2]

/-- Witness of C8: when the accelerated stage handles nothing, a colour and depth request
goes to the direct engine copy, which takes the colour bit, and the generic
fallback receives the depth bit; when the accelerated stage returns zero nothing
else is invoked. -/
theorem intel_blit_framebuffer_stage_chain_witness :
    intel_blit_framebuffer (ex_collaborators true) ex_brw_blit ex_rect_same_size
        (GL_COLOR_BUFFER_BIT ||| GL_DEPTH_BUFFER_BIT) GL_NEAREST =
      [BlitStageCall.brw_blorp_framebuffer ex_rect_same_size
         (GL_COLOR_BUFFER_BIT ||| GL_DEPTH_BUFFER_BIT) GL_NEAREST,
       BlitStageCall.intel_blit_framebuffer_with_blitter ex_rect_same_size
         (GL_COLOR_BUFFER_BIT ||| GL_DEPTH_BUFFER_BIT) GL_NEAREST,
       BlitStageCall._mesa_meta_BlitFramebuffer ex_rect_same_size GL_DEPTH_BUFFER_BIT GL_NEAREST] ∧
    intel_blit_framebuffer ex_collaborators_blorp_all ex_brw_blit ex_rect_same_size
        (GL_COLOR_BUFFER_BIT ||| GL_DEPTH_BUFFER_BIT) GL_NEAREST =
      [BlitStageCall.brw_blorp_framebuffer ex_rect_same_size
         (GL_COLOR_BUFFER_BIT ||| GL_DEPTH_BUFFER_BIT) GL_NEAREST] :=
  ⟨(intel_blit_framebuffer_stage_chain (ex_collaborators true) ex_brw_blit ex_brw_blit
      ex_rect_same_size (GL_COLOR_BUFFER_BIT ||| GL_DEPTH_BUFFER_BIT) GL_NEAREST
      (GL_COLOR_BUFFER_BIT ||| GL_DEPTH_BUFFER_BIT) GL_DEPTH_BUFFER_BIT rfl (by decide)).1,
   (intel_blit_framebuffer_stage_chain ex_collaborators_blorp_all ex_brw_blit ex_brw_blit
      ex_rect_same_size (GL_COLOR_BUFFER_BIT ||| GL_DEPTH_BUFFER_BIT) GL_NEAREST
      0 0 rfl (by decide)).1⟩

/-- C9: the mask the direct engine copy returns for a 32-bit mask is the given mask or
the given mask with the colour bit cleared; every bit other than the colour bit
(bit 14) is in the result exactly when it is in the given mask, so depth and
stencil bits are kept and no bit is added; when the given mask has no colour bit
the result is the given mask and no engine copy is issued. -/
theorem blitter_touches_color_bit_only (ext : Collaborators) (ctx : brw_context)
    (r : BlitRect) (mask filter : Nat) (hmask : mask < 4294967296) :
    ((intel_blit_framebuffer_with_blitter ext ctx r mask filter).mask = mask ∨
      ((intel_blit_framebuffer_with_blitter ext ctx r mask filter).mask = clear_color_bit mask ∧
        (clear_color_bit mask).testBit 14 = false)) ∧
    (∀ k, k ≠ 14 →
      (intel_blit_framebuffer_with_blitter ext ctx r mask filter).mask.testBit k
        = mask.testBit k) ∧
    (∀ k, (intel_blit_framebuffer_with_blitter ext ctx r mask filter).mask.testBit k = true →
      mask.testBit k = true) ∧
    (mask &&& GL_COLOR_BUFFER_BIT = 0 →
      (intel_blit_framebuffer_with_blitter ext ctx r mask filter).mask = mask ∧
      (intel_blit_framebuffer_with_blitter ext ctx r mask filter).blits = []) := by
  rcases blitter_mask_cases ext ctx r mask filter with ⟨hsame, hblits⟩ | ⟨hclr, hc, _⟩
  · refine ⟨Or.inl hsame, fun k _ => by rw [hsame], fun k hk => by rw [hsame] at hk; exact hk,
      fun h0 => ⟨hsame, hblits h0⟩⟩
  · refine ⟨Or.inr ⟨hclr, ?_⟩, fun k hk => ?_, fun k hk => ?_, fun h0 => absurd h0 hc⟩
    · rw [clear_color_bit_testBit mask hmask 14]
      simp
    · rw [hclr, clear_color_bit_testBit mask hmask k]
      simp [hk]
    · rw [hclr, clear_color_bit_testBit mask hmask k] at hk
      simp only [Bool.and_eq_true] at hk
      exact hk.1

/-- Witness of C9: a colour, depth and stencil request that the engine satisfies comes
back as depth and stencil; a depth and stencil request comes back as it was, with
no engine copy issued. -/
theorem blitter_touches_color_bit_only_witness :
    (intel_blit_framebuffer_with_blitter (ex_collaborators true) ex_brw_blit ex_rect_same_size
        (GL_COLOR_BUFFER_BIT ||| GL_DEPTH_BUFFER_BIT ||| GL_STENCIL_BUFFER_BIT) GL_NEAREST).mask
      = (GL_DEPTH_BUFFER_BIT ||| GL_STENCIL_BUFFER_BIT) ∧
    ((intel_blit_framebuffer_with_blitter (ex_collaborators true) ex_brw_blit ex_rect_same_size
        (GL_DEPTH_BUFFER_BIT ||| GL_STENCIL_BUFFER_BIT) GL_NEAREST).mask
      = (GL_DEPTH_BUFFER_BIT ||| GL_STENCIL_BUFFER_BIT) ∧
     (intel_blit_framebuffer_with_blitter (ex_collaborators true) ex_brw_blit ex_rect_same_size
        (GL_DEPTH_BUFFER_BIT ||| GL_STENCIL_BUFFER_BIT) GL_NEAREST).blits = []) :=
  ⟨by decide,
   (blitter_touches_color_bit_only (ex_collaborators true) ex_brw_blit ex_rect_same_size
      (GL_DEPTH_BUFFER_BIT ||| GL_STENCIL_BUFFER_BIT) GL_NEAREST (by decide)).2.2.2 (by decide)⟩

/-! ## Lemmas on storage allocation -/

/-- The quantizer maps each of its values to itself. -/
theorem quantize_fixed_point (intel : intel_screen) (n : Nat) :
    intel_quantize_num_samples intel (intel_quantize_num_samples intel n)
      = intel_quantize_num_samples intel n := by
  unfold intel_quantize_num_samples
  split_ifs <;> first | rfl | omega

/-- On a driver Surface the storage allocation returns, and every field of its result
is determined as follows. -/
theorem alloc_storage_result (ext : Collaborators) (brw : brw_context) (rb : gl_renderbuffer)
    (internalFormat width height : Nat) (hcls : rb.ClassID = INTEL_RB_CLASS) :
    ∃ r, intel_alloc_renderbuffer_storage ext brw rb internalFormat width height = .ok r ∧
      r.released = rb.mt ∧
      r.chooser_calls = (alloc_choose_format ext brw internalFormat).2.1 ∧
      r.assertion_failed = (alloc_choose_format ext brw internalFormat).2.2 ∧
      r.rb = { rb with
        NumSamples := intel_quantize_num_samples brw.intelScreen rb.NumSamples,
        Format := (alloc_choose_format ext brw internalFormat).1,
        Width := width, Height := height,
        _BaseFormat := ext._mesa_base_fbo_format brw internalFormat,
        mt := if width = 0 ∨ height = 0 then none
              else ext.intel_miptree_create_for_renderbuffer brw
                (alloc_choose_format ext brw internalFormat).1 width height
                (intel_quantize_num_samples brw.intelScreen rb.NumSamples) } ∧
      r.ret = (if width = 0 ∨ height = 0 then true
               else (ext.intel_miptree_create_for_renderbuffer brw
                (alloc_choose_format ext brw internalFormat).1 width height
                (intel_quantize_num_samples brw.intelScreen rb.NumSamples)).isSome) ∧
      r.allocator_calls = (if width = 0 ∨ height = 0 then []
               else [{ format := (alloc_choose_format ext brw internalFormat).1,
                       width := width, height := height,
                       num_samples :=
                         intel_quantize_num_samples brw.intelScreen rb.NumSamples }]) := by
  have hirb : intel_renderbuffer (some rb) = some rb := by simp [intel_renderbuffer, hcls]
  unfold intel_alloc_renderbuffer_storage
  simp only [hirb]
  by_cases hz : width = 0 ∨ height = 0
  · simp only [if_pos hz]
    exact ⟨_, rfl, rfl, rfl, rfl, rfl, rfl, rfl⟩
  · simp only [if_neg hz]
    cases hc : ext.intel_miptree_create_for_renderbuffer brw
        (alloc_choose_format ext brw internalFormat).1 width height
        (intel_quantize_num_samples brw.intelScreen rb.NumSamples) with
    | none => exact ⟨_, rfl, rfl, rfl, rfl, rfl, rfl, rfl⟩
    | some region => exact ⟨_, rfl, rfl, rfl, rfl, rfl, rfl, rfl⟩

/-- The stencil index branch of the format switch. -/
theorem alloc_choose_format_stencil (ext : Collaborators) (brw : brw_context)
    (internalFormat : Nat) (h : is_stencil_index_format internalFormat = true) :
    (alloc_choose_format ext brw internalFormat).1
        = (if brw.has_separate_stencil = true then gl_format.MESA_FORMAT_S8
           else gl_format.MESA_FORMAT_S8_Z24) ∧
    (alloc_choose_format ext brw internalFormat).2.1 = [] := by
  unfold alloc_choose_format
  rw [if_pos h]
  split_ifs <;> exact ⟨rfl, rfl⟩

/-- The default branch of the format switch. -/
theorem alloc_choose_format_other (ext : Collaborators) (brw : brw_context)
    (internalFormat : Nat) (h : is_stencil_index_format internalFormat = false) :
    (alloc_choose_format ext brw internalFormat).1
        = ext.ChooseTextureFormat brw GL_TEXTURE_2D internalFormat GL_NONE GL_NONE ∧
    (alloc_choose_format ext brw internalFormat).2.1
        = [{ target := GL_TEXTURE_2D, internalFormat := internalFormat,
             format := GL_NONE, type_ := GL_NONE }] := by
  unfold alloc_choose_format
  rw [if_neg (by simp [h])]
  exact ⟨rfl, rfl⟩

/-- The `case` labels of the format switch are the five stencil index formats. -/
theorem is_stencil_index_format_iff (internalFormat : Nat) :
    is_stencil_index_format internalFormat = true ↔
      (internalFormat = GL_STENCIL_INDEX ∨ internalFormat = GL_STENCIL_INDEX1_EXT ∨
       internalFormat = GL_STENCIL_INDEX4_EXT ∨ internalFormat = GL_STENCIL_INDEX8_EXT ∨
       internalFormat = GL_STENCIL_INDEX16_EXT) := by
  simp [is_stencil_index_format, or_assoc]

/-- A Surface whose storage was allocated with width 0 has no region, and the validator
faults on a framebuffer that has it in the stencil slot. -/
theorem validate_faults_after_zero_size_alloc (ext : Collaborators) (brw : brw_context)
    (mts : MtStore) (rb : gl_renderbuffer) (internalFormat height : Nat)
    (hcls : rb.ClassID = INTEL_RB_CLASS) :
    ∃ r, intel_alloc_renderbuffer_storage ext brw rb internalFormat 0 height = .ok r ∧
      r.ret = true ∧ r.rb.mt = none ∧
      intel_validate_framebuffer ext brw mts
        (ex_fb_depth_stencil {} { Type_ := GL_RENDERBUFFER, Renderbuffer := some r.rb })
        = .error Fault.null_deref := by
  obtain ⟨r, hr, _, _, _, hrb, hret, _⟩ :=
    alloc_storage_result ext brw rb internalFormat 0 height hcls
  have hmt : r.rb.mt = none := by rw [hrb]; simp
  have hc : r.rb.ClassID = INTEL_RB_CLASS := by rw [hrb]; exact hcls
  refine ⟨r, hr, by simpa using hret, hmt, ?_⟩
  have hbad : stencil_region_present
      (ex_fb_depth_stencil {} { Type_ := GL_RENDERBUFFER, Renderbuffer := some r.rb }) = false := by
    simp [stencil_region_present, intel_get_renderbuffer, intel_renderbuffer,
      ex_fb_depth_stencil, BUFFER_STENCIL, BUFFER_DEPTH, hc, hmt]
  have hf := depth_stencil_faults ext brw mts
    { fb := ex_fb_depth_stencil {} { Type_ := GL_RENDERBUFFER, Renderbuffer := some r.rb } } hbad
  simp only [intel_validate_framebuffer, hf]

/-! ## Theorems: storage allocation -/

/-- C11: the quantizer is idempotent for every generation and every count, and the
sample count that the storage allocation stores on a Surface is the quantised
request, a fixed point of the quantizer for the generation of the screen. -/
theorem intel_quantize_num_samples_idempotent (ext : Collaborators) (brw : brw_context)
    (rb : gl_renderbuffer) (internalFormat width height : Nat)
    (hcls : rb.ClassID = INTEL_RB_CLASS) :
    (∀ (g : Int) (n : Nat),
      intel_quantize_num_samples { gen := g } (intel_quantize_num_samples { gen := g } n)
        = intel_quantize_num_samples { gen := g } n) ∧
    ∃ r, intel_alloc_renderbuffer_storage ext brw rb internalFormat width height = .ok r ∧
      r.rb.NumSamples = intel_quantize_num_samples brw.intelScreen rb.NumSamples ∧
      intel_quantize_num_samples brw.intelScreen r.rb.NumSamples = r.rb.NumSamples := by
  refine ⟨fun g n => quantize_fixed_point _ n, ?_⟩
  obtain ⟨r, hr, _, _, _, hrb, _, _⟩ :=
    alloc_storage_result ext brw rb internalFormat width height hcls
  refine ⟨r, hr, ?_, ?_⟩
  · rw [hrb]
  · rw [hrb]
    exact quantize_fixed_point _ _

/-- Witness of C11: a request of 5 samples on generation 7 is stored as 8, which
quantises to 8. -/
theorem intel_quantize_num_samples_idempotent_witness :
    ex_renderbuffer_5_samples.NumSamples = 5 ∧
    ∃ r, intel_alloc_renderbuffer_storage (ex_collaborators true) ex_brw_gen7
        ex_renderbuffer_5_samples GL_RGBA8 16 16 = .ok r ∧
      r.rb.NumSamples = 8 ∧
      intel_quantize_num_samples ex_brw_gen7.intelScreen r.rb.NumSamples = r.rb.NumSamples := by
  obtain ⟨r, hr, hn, hfix⟩ := (intel_quantize_num_samples_idempotent (ex_collaborators true)
    ex_brw_gen7 ex_renderbuffer_5_samples GL_RGBA8 16 16 rfl).2
  exact ⟨rfl, r, hr, by rw [hn]; decide, hfix⟩

/-- C13: on a driver Surface the storage allocation returns; it hands the previous region
of the Surface to the release function and sets `Width` and `Height` to the
request; with a zero width or height it returns `true`, does not call the
allocator and leaves the Surface without region; otherwise it calls the allocator
once, the result of the allocator becomes the region of the Surface, it returns
`true` exactly when the allocator returned a region and `false` exactly when the
allocator failed, the Surface then being without region. -/
theorem intel_alloc_renderbuffer_storage_contract (ext : Collaborators) (brw : brw_context)
    (rb : gl_renderbuffer) (internalFormat width height : Nat)
    (hcls : rb.ClassID = INTEL_RB_CLASS) :
    ∃ r, intel_alloc_renderbuffer_storage ext brw rb internalFormat width height = .ok r ∧
      r.released = rb.mt ∧ r.rb.Width = width ∧ r.rb.Height = height ∧
      ((width = 0 ∨ height = 0) →
        r.ret = true ∧ r.allocator_calls = [] ∧ r.rb.mt = none) ∧
      (¬ (width = 0 ∨ height = 0) →
        r.allocator_calls = [{ format := r.rb.Format, width := width, height := height,
                               num_samples := r.rb.NumSamples }] ∧
        r.rb.mt = ext.intel_miptree_create_for_renderbuffer brw r.rb.Format width height
                    r.rb.NumSamples ∧
        (r.ret = true ↔ ∃ region, ext.intel_miptree_create_for_renderbuffer brw r.rb.Format
                    width height r.rb.NumSamples = some region ∧ r.rb.mt = some region) ∧
        (r.ret = false ↔ ext.intel_miptree_create_for_renderbuffer brw r.rb.Format
                    width height r.rb.NumSamples = none) ∧
        (r.ret = false → r.rb.mt = none)) := by
  obtain ⟨r, hr, hrel, _, _, hrb, hret, hcalls⟩ :=
    alloc_storage_result ext brw rb internalFormat width height hcls
  refine ⟨r, hr, hrel, by rw [hrb], by rw [hrb], ?_, ?_⟩
  · intro hz
    rw [if_pos hz] at hret hcalls
    refine ⟨hret, hcalls, ?_⟩
    rw [hrb]
    simp [hz]
  · intro hz
    rw [if_neg hz] at hret hcalls
    have hF : r.rb.Format = (alloc_choose_format ext brw internalFormat).1 := by rw [hrb]
    have hN : r.rb.NumSamples = intel_quantize_num_samples brw.intelScreen rb.NumSamples := by
      rw [hrb]
    have hmt : r.rb.mt = ext.intel_miptree_create_for_renderbuffer brw r.rb.Format width height
        r.rb.NumSamples := by
      rw [hF, hN, hrb]
      simp [hz]
    rw [hF, hN] at *
    refine ⟨hcalls, hmt, ?_, ?_, ?_⟩
    · rw [hret, Option.isSome_iff_exists]
      constructor
      · rintro ⟨region, hreg⟩
        exact ⟨region, hreg, by rw [hmt, hreg]⟩
      · rintro ⟨region, hreg, _⟩
        exact ⟨region, hreg⟩
    · rw [hret]
      cases ext.intel_miptree_create_for_renderbuffer brw
        (alloc_choose_format ext brw internalFormat).1 width height
        (intel_quantize_num_samples brw.intelScreen rb.NumSamples) <;> simp
    · intro hfalse
      rw [hret] at hfalse
      rw [hmt]
      cases hc : ext.intel_miptree_create_for_renderbuffer brw
        (alloc_choose_format ext brw internalFormat).1 width height
        (intel_quantize_num_samples brw.intelScreen rb.NumSamples) with
      | none => rfl
      | some region => rw [hc] at hfalse; simp at hfalse

/-- Witness of C13: a Surface with region 4 is given 16x16 storage (the allocator returns
region 3), then 0x16 storage, then 16x16 storage from an allocator that fails. -/
theorem intel_alloc_renderbuffer_storage_contract_witness :
    (∃ r, intel_alloc_renderbuffer_storage (ex_collaborators true) ex_brw_gen7
        ex_renderbuffer_5_samples GL_RGBA8 16 16 = .ok r ∧
      r.released = some 4 ∧ r.rb.Width = 16 ∧ r.rb.Height = 16 ∧
      r.ret = true ∧ r.rb.mt = some 3) ∧
    (∃ r, intel_alloc_renderbuffer_storage (ex_collaborators true) ex_brw_gen7
        ex_renderbuffer_5_samples GL_RGBA8 0 16 = .ok r ∧
      r.released = some 4 ∧ r.ret = true ∧ r.allocator_calls = [] ∧ r.rb.mt = none) ∧
    (∃ r, intel_alloc_renderbuffer_storage ex_collaborators_no_memory ex_brw_gen7
        ex_renderbuffer_5_samples GL_RGBA8 16 16 = .ok r ∧
      r.released = some 4 ∧ r.ret = false ∧ r.rb.mt = none) := by
  refine ⟨?_, ?_, ?_⟩
  · obtain ⟨r, hr, hrel, hw, hh, _, hnz⟩ := intel_alloc_renderbuffer_storage_contract
      (ex_collaborators true) ex_brw_gen7 ex_renderbuffer_5_samples GL_RGBA8 16 16 rfl
    obtain ⟨_, hmt, hret, _, _⟩ := hnz (by decide)
    have hmt3 : r.rb.mt = some 3 := hmt
    exact ⟨r, hr, hrel, hw, hh, hret.mpr ⟨3, rfl, hmt3⟩, hmt3⟩
  · obtain ⟨r, hr, hrel, _, _, hz, _⟩ := intel_alloc_renderbuffer_storage_contract
      (ex_collaborators true) ex_brw_gen7 ex_renderbuffer_5_samples GL_RGBA8 0 16 rfl
    obtain ⟨hret, hcalls, hmt⟩ := hz (Or.inl rfl)
    exact ⟨r, hr, hrel, hret, hcalls, hmt⟩
  · obtain ⟨r, hr, hrel, _, _, _, hnz⟩ := intel_alloc_renderbuffer_storage_contract
      ex_collaborators_no_memory ex_brw_gen7 ex_renderbuffer_5_samples GL_RGBA8 16 16 rfl
    obtain ⟨_, _, _, hfalse, hnone⟩ := hnz (by decide)
    have hf : r.ret = false := hfalse.mpr rfl
    exact ⟨r, hr, hrel, hf, hnone hf⟩

/-- C15: on a driver Surface, for each of the five stencil index internal formats the
format chosen is `MESA_FORMAT_S8` when the hardware has separate stencil and
`MESA_FORMAT_S8_Z24` otherwise, the format chooser is not called, and the format
is the same whatever function the format chooser is; for every other internal
format the format chosen is what the format chooser returns for
`(GL_TEXTURE_2D, internalFormat, GL_NONE, GL_NONE)`, its only call. -/
theorem intel_alloc_renderbuffer_storage_format (ext : Collaborators) (brw : brw_context)
    (rb : gl_renderbuffer) (internalFormat width height : Nat)
    (hcls : rb.ClassID = INTEL_RB_CLASS) :
    ∃ r, intel_alloc_renderbuffer_storage ext brw rb internalFormat width height = .ok r ∧
      ((internalFormat = GL_STENCIL_INDEX ∨ internalFormat = GL_STENCIL_INDEX1_EXT ∨
        internalFormat = GL_STENCIL_INDEX4_EXT ∨ internalFormat = GL_STENCIL_INDEX8_EXT ∨
        internalFormat = GL_STENCIL_INDEX16_EXT) →
        r.rb.Format = (if brw.has_separate_stencil = true then gl_format.MESA_FORMAT_S8
                       else gl_format.MESA_FORMAT_S8_Z24) ∧
        r.chooser_calls = [] ∧
        ∀ chooser, ∃ r2,
          intel_alloc_renderbuffer_storage { ext with ChooseTextureFormat := chooser } brw rb
            internalFormat width height = .ok r2 ∧
          r2.rb.Format = r.rb.Format ∧ r2.chooser_calls = []) ∧
      (¬ (internalFormat = GL_STENCIL_INDEX ∨ internalFormat = GL_STENCIL_INDEX1_EXT ∨
        internalFormat = GL_STENCIL_INDEX4_EXT ∨ internalFormat = GL_STENCIL_INDEX8_EXT ∨
        internalFormat = GL_STENCIL_INDEX16_EXT) →
        r.rb.Format = ext.ChooseTextureFormat brw GL_TEXTURE_2D internalFormat GL_NONE GL_NONE ∧
        r.chooser_calls = [{ target := GL_TEXTURE_2D, internalFormat := internalFormat,
                             format := GL_NONE, type_ := GL_NONE }]) := by
  obtain ⟨r, hr, _, hch, _, hrb, _, _⟩ :=
    alloc_storage_result ext brw rb internalFormat width height hcls
  have hF : r.rb.Format = (alloc_choose_format ext brw internalFormat).1 := by rw [hrb]
  refine ⟨r, hr, ?_, ?_⟩
  · intro hst
    have hs := (is_stencil_index_format_iff internalFormat).mpr hst
    obtain ⟨h1, h2⟩ := alloc_choose_format_stencil ext brw internalFormat hs
    refine ⟨by rw [hF, h1], by rw [hch, h2], fun chooser => ?_⟩
    obtain ⟨r2, hr2, _, hch2, _, hrb2, _, _⟩ :=
      alloc_storage_result { ext with ChooseTextureFormat := chooser } brw rb
        internalFormat width height hcls
    obtain ⟨k1, k2⟩ := alloc_choose_format_stencil { ext with ChooseTextureFormat := chooser }
      brw internalFormat hs
    refine ⟨r2, hr2, ?_, by rw [hch2, k2]⟩
    rw [hF, h1, hrb2]
    exact k1
  · intro hst
    have hs : is_stencil_index_format internalFormat = false := by
      cases h : is_stencil_index_format internalFormat with
      | false => rfl
      | true => exact absurd ((is_stencil_index_format_iff internalFormat).mp h) hst
    obtain ⟨h1, h2⟩ := alloc_choose_format_other ext brw internalFormat hs
    exact ⟨by rw [hF, h1], by rw [hch, h2]⟩

/-- Witness of C15: `GL_STENCIL_INDEX8_EXT` gives `MESA_FORMAT_S8` with separate stencil
(generation 7) and `MESA_FORMAT_S8_Z24` without (generation 5); `GL_RGBA8` gives
what the chooser answers. -/
theorem intel_alloc_renderbuffer_storage_format_witness :
    (∃ r, intel_alloc_renderbuffer_storage (ex_collaborators true) ex_brw_gen7
        ex_renderbuffer_5_samples GL_STENCIL_INDEX8_EXT 16 16 = .ok r ∧
      r.rb.Format = gl_format.MESA_FORMAT_S8 ∧ r.chooser_calls = []) ∧
    (∃ r, intel_alloc_renderbuffer_storage (ex_collaborators true) ex_brw_gen5
        ex_renderbuffer_5_samples GL_STENCIL_INDEX8_EXT 16 16 = .ok r ∧
      r.rb.Format = gl_format.MESA_FORMAT_S8_Z24 ∧ r.chooser_calls = []) ∧
    (∃ r, intel_alloc_renderbuffer_storage (ex_collaborators true) ex_brw_gen7
        ex_renderbuffer_5_samples GL_RGBA8 16 16 = .ok r ∧
      r.rb.Format = gl_format.other GL_RGBA8) := by
  refine ⟨?_, ?_, ?_⟩
  · obtain ⟨r, hr, hst, _⟩ := intel_alloc_renderbuffer_storage_format (ex_collaborators true)
      ex_brw_gen7 ex_renderbuffer_5_samples GL_STENCIL_INDEX8_EXT 16 16 rfl
    obtain ⟨hf, hc, _⟩ := hst (Or.inr (Or.inr (Or.inr (Or.inl rfl))))
    exact ⟨r, hr, hf, hc⟩
  · obtain ⟨r, hr, hst, _⟩ := intel_alloc_renderbuffer_storage_format (ex_collaborators true)
      ex_brw_gen5 ex_renderbuffer_5_samples GL_STENCIL_INDEX8_EXT 16 16 rfl
    obtain ⟨hf, hc, _⟩ := hst (Or.inr (Or.inr (Or.inr (Or.inl rfl))))
    exact ⟨r, hr, hf, hc⟩
  · obtain ⟨r, hr, _, hoth⟩ := intel_alloc_renderbuffer_storage_format (ex_collaborators true)
      ex_brw_gen7 ex_renderbuffer_5_samples GL_RGBA8 16 16 rfl
    obtain ⟨hf, _⟩ := hoth (by decide)
    exact ⟨r, hr, hf⟩

/-! ## Theorems: binding a texture image -/

/-- The HiZ slice resolve on a slice whose flag is clear. -/
theorem slice_resolve_hiz_clear (ext : Collaborators) (brw : brw_context) (mts : MtStore)
    (mt : MtPtr) (level layer : Nat) (h : (level, layer) ∉ (mts mt).needs_hiz_resolve) :
    intel_miptree_slice_resolve_hiz ext brw mts mt level layer = (true, mts) := by
  unfold intel_miptree_slice_resolve_hiz
  rw [if_neg h]

/-- The depth slice resolve on a slice whose flag is clear. -/
theorem slice_resolve_depth_clear (ext : Collaborators) (brw : brw_context) (mts : MtStore)
    (mt : MtPtr) (level layer : Nat) (h : (level, layer) ∉ (mts mt).needs_depth_resolve) :
    intel_miptree_slice_resolve_depth ext brw mts mt level layer = (true, mts) := by
  unfold intel_miptree_slice_resolve_depth
  rw [if_neg h]

/-- After the HiZ slice resolve the flag of the slice is clear. -/
theorem slice_resolve_hiz_clears (ext : Collaborators) (brw : brw_context) (mts : MtStore)
    (mt : MtPtr) (level layer : Nat) :
    (level, layer) ∉
      ((intel_miptree_slice_resolve_hiz ext brw mts mt level layer).2 mt).needs_hiz_resolve := by
  unfold intel_miptree_slice_resolve_hiz
  by_cases h : (level, layer) ∈ (mts mt).needs_hiz_resolve
  · rw [if_pos h]
    simp [List.mem_filter]
  · rw [if_neg h]
    exact h

/-- After the depth slice resolve the flag of the slice is clear. -/
theorem slice_resolve_depth_clears (ext : Collaborators) (brw : brw_context) (mts : MtStore)
    (mt : MtPtr) (level layer : Nat) :
    (level, layer) ∉
      ((intel_miptree_slice_resolve_depth ext brw mts mt level layer).2 mt).needs_depth_resolve := by
  unfold intel_miptree_slice_resolve_depth
  by_cases h : (level, layer) ∈ (mts mt).needs_depth_resolve
  · rw [if_pos h]
    simp [List.mem_filter]
  · rw [if_neg h]
    exact h

/-- C14, as amended: for a Surface that has a region and whose current slice has the
needs-resolve flag clear, `intel_renderbuffer_resolve_hiz` (and likewise
`intel_renderbuffer_resolve_depth`) changes no state and returns `true`, and a
second call right after a first returns `true` and changes nothing; for a Surface
that has no region, which has no flag set, either call changes no state and
returns `false`. -/
theorem resolve_noop_on_clear_slice (ext : Collaborators) (brw : brw_context) (mts : MtStore)
    (irb : gl_renderbuffer) :
    (irb.mt ≠ none →
      (surface_needs_hiz_resolve mts irb = false →
        intel_renderbuffer_resolve_hiz ext brw mts irb = (true, mts)) ∧
      (surface_needs_depth_resolve mts irb = false →
        intel_renderbuffer_resolve_depth ext brw mts irb = (true, mts)) ∧
      intel_renderbuffer_resolve_hiz ext brw
          (intel_renderbuffer_resolve_hiz ext brw mts irb).2 irb
        = (true, (intel_renderbuffer_resolve_hiz ext brw mts irb).2) ∧
      intel_renderbuffer_resolve_depth ext brw
          (intel_renderbuffer_resolve_depth ext brw mts irb).2 irb
        = (true, (intel_renderbuffer_resolve_depth ext brw mts irb).2)) ∧
    (irb.mt = none →
      surface_needs_hiz_resolve mts irb = false ∧
      surface_needs_depth_resolve mts irb = false ∧
      intel_renderbuffer_resolve_hiz ext brw mts irb = (false, mts) ∧
      intel_renderbuffer_resolve_depth ext brw mts irb = (false, mts)) := by
  constructor
  · intro hmt
    cases hm : irb.mt with
    | none => exact absurd hm hmt
    | some mt =>
      simp only [surface_needs_hiz_resolve, surface_needs_depth_resolve,
        intel_renderbuffer_resolve_hiz, intel_renderbuffer_resolve_depth, hm,
        decide_eq_false_iff_not]
      exact ⟨fun h => slice_resolve_hiz_clear ext brw mts mt _ _ h,
        fun h => slice_resolve_depth_clear ext brw mts mt _ _ h,
        slice_resolve_hiz_clear ext brw _ mt _ _ (slice_resolve_hiz_clears ext brw mts mt _ _),
        slice_resolve_depth_clear ext brw _ mt _ _
          (slice_resolve_depth_clears ext brw mts mt _ _)⟩
  · intro hm
    simp [surface_needs_hiz_resolve, surface_needs_depth_resolve,
      intel_renderbuffer_resolve_hiz, intel_renderbuffer_resolve_depth, hm]

/-- Witness of C14 as amended: a renderbuffer with region 3, none of whose slices needs
a resolve, and the slice (0, 0) of that region after it was marked and resolved
once. -/
theorem resolve_noop_on_clear_slice_witness :
    (ex_renderbuffer 3).mt ≠ none ∧
    surface_needs_hiz_resolve ex_store (ex_renderbuffer 3) = false ∧
    intel_renderbuffer_resolve_hiz (ex_collaborators true) ex_brw_gen7 ex_store (ex_renderbuffer 3)
      = (true, ex_store) ∧
    surface_needs_hiz_resolve
      (intel_renderbuffer_set_needs_hiz_resolve ex_store (ex_renderbuffer 3))
      (ex_renderbuffer 3) = true ∧
    (intel_renderbuffer_resolve_hiz (ex_collaborators true) ex_brw_gen7
      (intel_renderbuffer_resolve_hiz (ex_collaborators true) ex_brw_gen7
        (intel_renderbuffer_set_needs_hiz_resolve ex_store (ex_renderbuffer 3))
        (ex_renderbuffer 3)).2 (ex_renderbuffer 3)).1 = true :=
  ⟨by decide, by decide,
   ((resolve_noop_on_clear_slice (ex_collaborators true) ex_brw_gen7 ex_store
      (ex_renderbuffer 3)).1 (by decide)).1 (by decide),
   by decide,
   congrArg Prod.fst
     ((resolve_noop_on_clear_slice (ex_collaborators true) ex_brw_gen7
        (intel_renderbuffer_set_needs_hiz_resolve ex_store (ex_renderbuffer 3))
        (ex_renderbuffer 3)).1 (by decide)).2.2.1⟩

/-- C14, counterexample to the claim as stated: a Surface that has no region has no
needs-resolve flag set, and both resolve calls on it return `false`, not `true`. -/
theorem resolve_without_region_returns_false :
    ex_renderbuffer_no_region.mt = none ∧
    surface_needs_hiz_resolve ex_store ex_renderbuffer_no_region = false ∧
    surface_needs_depth_resolve ex_store ex_renderbuffer_no_region = false ∧
    (intel_renderbuffer_resolve_hiz (ex_collaborators true) ex_brw_gen7 ex_store
        ex_renderbuffer_no_region).1 = false ∧
    (intel_renderbuffer_resolve_depth (ex_collaborators true) ex_brw_gen7 ex_store
        ex_renderbuffer_no_region).1 = false ∧
    (intel_renderbuffer_resolve_hiz (ex_collaborators true) ex_brw_gen7 ex_store
        ex_renderbuffer_no_region).1 ≠ true := by
  refine ⟨rfl, by decide, by decide, by decide, by decide, by decide⟩

/-! ## Theorems: mapping a renderbuffer -/

/-- C16: for a driver Surface without malloc'd buffer.  When `Name == 0`, `h >= 1` and
`y + h <= Height`, the rows mapped start at `Height - y - h`, which is at most
`Height - h`; for a mapping with address `map` and a non-negative `int` row
distance `stride` whose last row offset `(h - 1) * stride` fits in 32 bits, the
function returns `out_stride = -stride` and `out_map = map + (h - 1) * stride`,
so that `out_map + r * out_stride` is the address `map + (h - 1 - r) * stride` of
the underlying row `h - 1 - r` for every `r < h`.  When `Name != 0` the requested
`y`, the mapped address and the stride are passed through unchanged. -/
theorem intel_map_renderbuffer_flip (ext : Collaborators) (brw : brw_context) (mts : MtStore)
    (rb : gl_renderbuffer) (x y w h mode : Nat)
    (hbuf : rb.Buffer = none) (hcls : rb.ClassID = INTEL_RB_CLASS) :
    (rb.Name = 0 → h ≥ 1 → y + h ≤ rb.Height → rb.Height < 4294967296 →
      ∀ (map stride : Int),
        ext.intel_miptree_map (ext.intel_prepare_render brw) mts rb.mt rb.mt_level rb.mt_layer
            x (rb.Height - y - h) w h mode = (map, stride) →
        0 ≤ stride → stride < 2147483648 → ((h : Int) - 1) * stride < 4294967296 →
        rb.Height - y - h ≤ rb.Height - h ∧
        intel_map_renderbuffer ext brw mts rb x y w h mode =
          .ok { out_map := map + ((h : Int) - 1) * stride, out_stride := -stride,
                map_call := some { mt := rb.mt, level := rb.mt_level, layer := rb.mt_layer,
                                   x := x, y := rb.Height - y - h, w := w, h := h,
                                   mode := mode } } ∧
        ∀ (r : Nat), r < h →
          (map + ((h : Int) - 1) * stride) + (r : Int) * (-stride)
            = map + (((h : Int) - 1 - (r : Int)) * stride)) ∧
    (rb.Name ≠ 0 →
      intel_map_renderbuffer ext brw mts rb x y w h mode =
        .ok { out_map := (ext.intel_miptree_map (ext.intel_prepare_render brw) mts rb.mt
                            rb.mt_level rb.mt_layer x y w h mode).1,
              out_stride := (ext.intel_miptree_map (ext.intel_prepare_render brw) mts rb.mt
                            rb.mt_level rb.mt_layer x y w h mode).2,
              map_call := some { mt := rb.mt, level := rb.mt_level, layer := rb.mt_layer,
                                 x := x, y := y, w := w, h := h, mode := mode } }) := by
  have hirb : intel_renderbuffer (some rb) = some rb := by simp [intel_renderbuffer, hcls]
  constructor
  · intro hname hh hyh hH map stride hmap hs0 hs1 hprod
    have hy1 : to_GLuint ((rb.Height : Int) - (y : Int) - (h : Int)) = rb.Height - y - h := by
      unfold to_GLuint
      omega
    refine ⟨by omega, ?_, ?_⟩
    · unfold intel_map_renderbuffer
      simp only [hbuf, hirb, hname, if_true, hy1, hmap]
      have h1 : wrap_GLuint (wrap_GLuint ((h : Int) - 1) * wrap_GLuint stride)
          = ((h : Int) - 1) * stride := by
        have ha : wrap_GLuint ((h : Int) - 1) = (h : Int) - 1 := by
          unfold wrap_GLuint; omega
        have hb : wrap_GLuint stride = stride := by
          unfold wrap_GLuint; omega
        rw [ha, hb]
        unfold wrap_GLuint
        have hnn : 0 ≤ ((h : Int) - 1) * stride := mul_nonneg (by omega) hs0
        exact Int.emod_eq_of_lt hnn hprod
      have h2 : wrap_GLint (-stride) = -stride := by
        unfold wrap_GLint; omega
      rw [h1, h2]
    · intro r _
      ring
  · intro hname
    unfold intel_map_renderbuffer
    simp only [hbuf, hirb, hname, if_false]

/-- Witness of C16: rows 2 to 5 of a 16-row window-system Surface are mapped as the
underlying rows 10 to 13 (row 10 at address 4736, stride 64), returned bottom-up
from address 4928 with stride -64; the same request on a user renderbuffer is
passed through. -/
theorem intel_map_renderbuffer_flip_witness :
    ex_window_surface.Name = 0 ∧ ex_window_surface.Height = 16 ∧
    intel_map_renderbuffer (ex_collaborators true) ex_brw_gen7 ex_store ex_window_surface
        0 2 16 4 0 =
      .ok { out_map := 4928, out_stride := -64,
            map_call := some { mt := some 3, level := 0, layer := 0,
                               x := 0, y := 10, w := 16, h := 4, mode := 0 } } ∧
    intel_map_renderbuffer (ex_collaborators true) ex_brw_gen7 ex_store (ex_renderbuffer 3)
        0 2 16 4 0 =
      .ok { out_map := 4224, out_stride := 64,
            map_call := some { mt := some 3, level := 0, layer := 0,
                               x := 0, y := 2, w := 16, h := 4, mode := 0 } } :=
  ⟨rfl, rfl,
   ((intel_map_renderbuffer_flip (ex_collaborators true) ex_brw_gen7 ex_store ex_window_surface
      0 2 16 4 0 rfl rfl).1 rfl (by decide) (by decide) (by decide) 4736 64 rfl
      (by decide) (by decide) (by decide)).2.1,
   (intel_map_renderbuffer_flip (ex_collaborators true) ex_brw_gen7 ex_store (ex_renderbuffer 3)
      0 2 16 4 0 rfl rfl).2 (by decide)⟩

end IntelFbo
